import Mathlib

/-!
Shallow embedding of the svg-canvas document core: identifier generator
(src/core/id-generator.ts), element model (src/core/element.ts), document
manager (src/core/document.ts), history manager (src/core/history-manager.ts)
and layer manager (src/core/layer-manager.ts), together with proofs about the
claims of the specification.  TypeScript numbers are modelled as rationals
(indices as integers), JS objects as structures, union types as inductives,
`Map`/`Record` state as explicit association lists / functions threaded
through each operation.  `JSON.parse(JSON.stringify(x))` deep copies are the
identity on the modelled plain data.
-/

namespace SvgCanvas

/-! ### Identifier generator (src/core/id-generator.ts) -/

/-- The closed union of id kinds accepted by generateId (type IdPrefix in the
source). -/
inductive IdKind
  | rect | circle | ellipse | line | polyline | polygon | path
  | text | textpath | image | group | use
  | layer | gradient | pattern | filter | symbol | clip | mask
  | anim | history
deriving DecidableEq, Repr, Fintype

/-- kindStr renders the id kind as the literal string used in the template
literal of generateId. -/
def kindStr : IdKind → String
  | .rect => "rect" | .circle => "circle" | .ellipse => "ellipse"
  | .line => "line" | .polyline => "polyline" | .polygon => "polygon"
  | .path => "path" | .text => "text" | .textpath => "textpath"
  | .image => "image" | .group => "group" | .use => "use"
  | .layer => "layer" | .gradient => "gradient" | .pattern => "pattern"
  | .filter => "filter" | .symbol => "symbol" | .clip => "clip"
  | .mask => "mask" | .anim => "anim" | .history => "history"

/-- The per-kind counter record (module-level `counters` object); absent keys
read as 0, matching the `if (!counters[prefix]) counters[prefix] = 0` guard. -/
def Counters : Type := IdKind → Nat

/-- resetCounters deletes every key, so every kind reads as 0 again. -/
def resetCounters : Counters := fun _ => 0

/-- One decimal digit character, as produced by JS number-to-string
conversion inside the template literal. -/
def decDigitChar (n : Nat) : Char :=
  match n with
  | 0 => '0' | 1 => '1' | 2 => '2' | 3 => '3' | 4 => '4'
  | 5 => '5' | 6 => '6' | 7 => '7' | 8 => '8' | _ => '9'

/-- Decimal digit list (most significant first) of a natural number, the JS
rendering of `${counters[prefix]}`. -/
def decDigits (n : Nat) : List Char :=
  if _h : n < 10 then [decDigitChar n]
  else decDigits (n / 10) ++ [decDigitChar (n % 10)]
termination_by n
decreasing_by
  exact Nat.div_lt_self (by omega) (by omega)

/-- The id string `${prefix}-${n}` produced for kind k and counter value n. -/
def genName (k : IdKind) (n : Nat) : String :=
  kindStr k ++ "-" ++ ⟨decDigits n⟩

/-- generateId: increment the kind's counter and render `${prefix}-${counter}`;
returns the id together with the updated counter state. -/
def generateId (k : IdKind) (c : Counters) : String × Counters :=
  let n := c k + 1
  (genName k n, fun k' => if k' = k then n else c k')

/-! ### Element model (src/types, src/core/element.ts) -/

/-- Point record. -/
structure Point where
  x : ℚ
  y : ℚ
deriving DecidableEq, Repr

/-- The common SVGElementAttributes shared by every element variant (the
styling/accessibility subset used by this development; remaining optional
attributes are handled identically by the source's object spreads). -/
structure ElemAttrs where
  id : String
  fill : Option String := none
  stroke : Option String := none
  strokeWidth : Option ℚ := none
  opacity : Option ℚ := none
  transform : Option String := none
  ariaLabel : Option String := none
deriving DecidableEq, Repr

/-- The closed SVGElement union: one constructor per variant, carrying the
common attributes and the variant geometry; only `group` is recursive. -/
inductive SVGElement
  | rect (attrs : ElemAttrs) (x y width height : ℚ) (rx ry : Option ℚ)
  | circle (attrs : ElemAttrs) (cx cy r : ℚ)
  | ellipse (attrs : ElemAttrs) (cx cy rx ry : ℚ)
  | line (attrs : ElemAttrs) (x1 y1 x2 y2 : ℚ)
  | polyline (attrs : ElemAttrs) (points : List Point)
  | polygon (attrs : ElemAttrs) (points : List Point)
  | path (attrs : ElemAttrs) (d : String)
  | text (attrs : ElemAttrs) (x y : ℚ) (content : String) (fontSize : Option ℚ)
  | textpath (attrs : ElemAttrs) (pathId : String) (content : String)
  | image (attrs : ElemAttrs) (href : String) (x y width height : ℚ)
  | group (attrs : ElemAttrs) (children : List SVGElement)
  | use (attrs : ElemAttrs) (href : String)
deriving Repr

/-- The common attributes of an element. -/
def SVGElement.attrs : SVGElement → ElemAttrs
  | .rect a _ _ _ _ _ _ => a
  | .circle a _ _ _ => a
  | .ellipse a _ _ _ _ => a
  | .line a _ _ _ _ => a
  | .polyline a _ => a
  | .polygon a _ => a
  | .path a _ => a
  | .text a _ _ _ _ => a
  | .textpath a _ _ => a
  | .image a _ _ _ _ _ => a
  | .group a _ => a
  | .use a _ => a

/-- element.id. -/
def SVGElement.elemId (e : SVGElement) : String := e.attrs.id

/-- Replace the common attributes of an element, keeping its geometry. -/
def SVGElement.withAttrs : SVGElement → ElemAttrs → SVGElement
  | .rect _ x y w h rx ry, a => .rect a x y w h rx ry
  | .circle _ cx cy r, a => .circle a cx cy r
  | .ellipse _ cx cy rx ry, a => .ellipse a cx cy rx ry
  | .line _ x1 y1 x2 y2, a => .line a x1 y1 x2 y2
  | .polyline _ ps, a => .polyline a ps
  | .polygon _ ps, a => .polygon a ps
  | .path _ d, a => .path a d
  | .text _ x y s f, a => .text a x y s f
  | .textpath _ p s, a => .textpath a p s
  | .image _ href x y w h, a => .image a href x y w h
  | .group _ cs, a => .group a cs
  | .use _ href, a => .use a href

/-- The id-generator kind used by cloneElement for an element:
`element.type === 'g' ? 'group' : element.type`. -/
def SVGElement.idKind : SVGElement → IdKind
  | .rect .. => .rect
  | .circle .. => .circle
  | .ellipse .. => .ellipse
  | .line .. => .line
  | .polyline .. => .polyline
  | .polygon .. => .polygon
  | .path .. => .path
  | .text .. => .text
  | .textpath .. => .textpath
  | .image .. => .image
  | .group .. => .group
  | .use .. => .use

mutual

/-- All identifiers occurring anywhere in the element tree (its own id and,
recursively, every descendant id of a group). -/
def elementIds : SVGElement → List String
  | .group a cs => a.id :: elementIdsList cs
  | e => [e.elemId]

/-- Identifiers of a list of elements. -/
def elementIdsList : List SVGElement → List String
  | [] => []
  | e :: es => elementIds e ++ elementIdsList es

end

mutual

/-- cloneElement: deep-copies an element (deep copy is the identity on the
modelled plain data), assigns `newId || generateId(...)` as the id (the
generator is consulted, and its counter advanced, only when no newId is
supplied, matching the short-circuit of `||`), and for a group recursively
clones every child; threads the generator counter state. -/
def cloneElement (e : SVGElement) (newId : Option String) (c : Counters) :
    SVGElement × Counters :=
  let (theId, c₁) :=
    match newId with
    | some s => (s, c)
    | none => generateId e.idKind c
  match e with
  | .group a cs =>
      let (cs', c₂) := cloneElementList cs c₁
      (.group { a with id := theId } cs', c₂)
  | e => (e.withAttrs { e.attrs with id := theId }, c₁)

/-- Recursive cloning of a group's children (`children.map(child =>
cloneElement(child))`, i.e. with no explicit newId), threading counters. -/
def cloneElementList (es : List SVGElement) (c : Counters) :
    List SVGElement × Counters :=
  match es with
  | [] => ([], c)
  | e :: rest =>
      let (e', c₁) := cloneElement e none c
      let (rest', c₂) := cloneElementList rest c₁
      (e' :: rest', c₂)

end

/-- A partial-changes object over the common attributes (Partial of the
element record): a present field overrides the corresponding field of the
element, exactly as the object spread `{ ...element, ...updates }` does —
including the id field. -/
structure ElementPatch where
  id : Option String := none
  fill : Option String := none
  stroke : Option String := none
  strokeWidth : Option ℚ := none
  opacity : Option ℚ := none
  transform : Option String := none
  ariaLabel : Option String := none
deriving DecidableEq, Repr

/-- Merge a patch into the attributes: fields present in the patch win. -/
def mergeAttrs (a : ElemAttrs) (p : ElementPatch) : ElemAttrs :=
  { id := p.id.getD a.id
    fill := if p.fill.isSome then p.fill else a.fill
    stroke := if p.stroke.isSome then p.stroke else a.stroke
    strokeWidth := if p.strokeWidth.isSome then p.strokeWidth else a.strokeWidth
    opacity := if p.opacity.isSome then p.opacity else a.opacity
    transform := if p.transform.isSome then p.transform else a.transform
    ariaLabel := if p.ariaLabel.isSome then p.ariaLabel else a.ariaLabel }

/-- updateElement (element-model level): `{ ...element, ...updates }` — returns
a new element with the patched fields overwritten. -/
def updateElement (e : SVGElement) (p : ElementPatch) : SVGElement :=
  e.withAttrs (mergeAttrs e.attrs p)

/-- createRect factory (geometry plus the option fields of this model). -/
def createRect (x y width height : ℚ) (optId : Option String)
    (optFill : Option String) (c : Counters) : SVGElement × Counters :=
  let (fresh, c') := generateId .rect c
  let theId := optId.getD fresh
  let c' := if optId.isSome then c else c'
  (.rect { id := theId, fill := optFill } x y width height none none, c')

/-- createCircle factory. -/
def createCircle (cx cy r : ℚ) (optId : Option String)
    (optFill : Option String) (c : Counters) : SVGElement × Counters :=
  let (fresh, c') := generateId .circle c
  let theId := optId.getD fresh
  let c' := if optId.isSome then c else c'
  (.circle { id := theId, fill := optFill } cx cy r, c')

/-- createGroup factory. -/
def createGroup (children : List SVGElement) (optId : Option String)
    (c : Counters) : SVGElement × Counters :=
  let (fresh, c') := generateId .group c
  let theId := optId.getD fresh
  let c' := if optId.isSome then c else c'
  (.group { id := theId } children, c')

/-! ### Document model (src/types, src/core/document.ts) -/

/-- ViewBox record. -/
structure ViewBox where
  minX : ℚ
  minY : ℚ
  width : ℚ
  height : ℚ
deriving DecidableEq, Repr

/-- Gradient color stop. -/
structure GradientStop where
  offset : ℚ
  color : String
  opacity : Option ℚ := none
deriving DecidableEq, Repr

/-- Gradient union (linear | radial) with the coordinate fields of each. -/
inductive Gradient
  | linear (id : String) (x1 y1 x2 y2 : Option ℚ) (stops : List GradientStop)
  | radial (id : String) (cx cy r : Option ℚ) (stops : List GradientStop)
deriving DecidableEq, Repr

/-- Pattern record. -/
structure Pattern where
  id : String
  width : ℚ
  height : ℚ
  content : String
deriving DecidableEq, Repr

/-- Filter record (the filter type is one of a closed set of strings; the
params map is a finite key-value list). -/
structure FilterDef where
  id : String
  filterType : String
  params : List (String × String)
deriving DecidableEq, Repr

/-- Symbol definition. -/
structure SymbolDef where
  id : String
  viewBox : Option String := none
  content : List SVGElement
deriving Repr

/-- The defs table of a document. -/
structure DefsTable where
  gradients : List Gradient := []
  patterns : List Pattern := []
  filters : List FilterDef := []
  symbols : List SymbolDef := []
  clipPaths : List SVGElement := []
  masks : List SVGElement := []
deriving Repr

/-- Canvas configuration. -/
structure CanvasConfig where
  width : ℚ
  height : ℚ
  viewBox : Option ViewBox := none
  background : Option String := none
  preserveAspectRatio : Option String := none
deriving DecidableEq, Repr

/-- The whole SVG document. -/
structure SVGDocument where
  config : CanvasConfig
  defs : DefsTable
  elements : List SVGElement
deriving Repr

/-- The SVGDocumentManager instance state (the listener list carries opaque
callbacks and is not part of the data model). -/
structure MgrState where
  document : SVGDocument
  filePath : Option String := none
  isDirty : Bool := false
deriving Repr

/-- createEmptyDocument: resets the id-generator counters and builds the
default 800x600 document, with the given config overrides applied on top
(the `{ ...defaultConfig, ...config }` spread). -/
def createEmptyDocument (config : CanvasConfig) : SVGDocument × Counters :=
  ({ config := config, defs := {}, elements := [] }, resetCounters)

/-- Options of SVGDocumentManager.create; the viewBox option is carried here
already parsed (the source parses the viewBox attribute string with
parseViewBox before use). -/
structure CreateOptions where
  viewBox : Option ViewBox := none
  background : Option String := none
  preserveAspectRatio : Option String := none
deriving DecidableEq, Repr

/-- SVGDocumentManager.create: replaces the document with an empty one whose
config carries the requested width/height (no validation of either), clears
the file path and dirty flag.  The id-generator counters are reset by
createEmptyDocument. -/
def MgrState.create (_s : MgrState) (width height : ℚ) (options : CreateOptions) :
    MgrState × Counters :=
  let vb : Option ViewBox :=
    match options.viewBox with
    | some v => some v
    | none => some { minX := 0, minY := 0, width := width, height := height }
  let (doc, c) := createEmptyDocument
    { width := width, height := height, viewBox := vb,
      background := options.background,
      preserveAspectRatio := options.preserveAspectRatio }
  ({ document := doc, filePath := none, isDirty := false }, c)

/-- addElement: appends to the top-level element sequence and marks dirty. -/
def MgrState.addElement (s : MgrState) (e : SVGElement) : MgrState :=
  { s with document := { s.document with elements := s.document.elements ++ [e] },
           isDirty := true }

mutual

/-- findElement: recursive first-match search of an element list (descending
into group children), as used by getElementById. -/
def findElement (es : List SVGElement) (id : String) : Option SVGElement :=
  match es with
  | [] => none
  | e :: rest =>
      if e.elemId = id then some e
      else
        match e with
        | .group _ cs =>
            match findElement cs id with
            | some found => some found
            | none => findElement rest id
        | _ => findElement rest id

end

/-- getElementById on the manager's document. -/
def MgrState.getElementById (s : MgrState) (id : String) : Option SVGElement :=
  findElement s.document.elements id

mutual

/-- Apply `Object.assign(element, updates)` to the first element of the list
whose id matches (depth-first, descending into groups), mirroring
getElementById followed by the in-place assign; returns the rewritten list
and whether a match was found. -/
def updateInList (es : List SVGElement) (id : String) (p : ElementPatch) :
    List SVGElement × Bool :=
  match es with
  | [] => ([], false)
  | e :: rest =>
      if e.elemId = id then (updateElement e p :: rest, true)
      else
        match e with
        | .group a cs =>
            let (cs', found) := updateInList cs id p
            if found then (.group a cs' :: rest, true)
            else
              let (rest', found') := updateInList rest id p
              (.group a cs :: rest', found')
        | _ =>
            let (rest', found') := updateInList rest id p
            (e :: rest', found')

end

/-- SVGDocumentManager.updateElement: finds the element by id and assigns the
partial changes onto it in place; returns false (and leaves the document
unchanged) when the id is absent. -/
def MgrState.updateElement (s : MgrState) (id : String) (p : ElementPatch) :
    Bool × MgrState :=
  let (es', found) := updateInList s.document.elements id p
  if found then
    (true, { s with document := { s.document with elements := es' },
                    isDirty := true })
  else (false, s)

/-! ### History manager (src/core/history-manager.ts) -/

/-- A history entry: id, action name, description.  Entry ids are UUIDs in
the source (`generateUUID('history')`, collision-free by assumption); the
model realizes that uniqueness with a monotone numeric id drawn from the
state's nextId field.  Wall-clock timestamps carry no program logic and are
omitted.  The data field is always null in the source. -/
structure HEntry where
  id : Nat
  action : String
  description : String
deriving DecidableEq, Repr

/-- HistoryManager instance state.  The snapshot Map (entry id → deep-copied
document) is an insertion-ordered association list with unique keys. -/
structure HistoryState where
  entries : List HEntry
  snapshots : List (Nat × SVGDocument)
  currentIndex : Int
  maxEntries : Nat
  isRecording : Bool
  nextId : Nat
deriving Repr

/-- A fresh HistoryManager with the given maxEntries. -/
def emptyHistory (maxEntries : Nat) : HistoryState :=
  { entries := [], snapshots := [], currentIndex := -1,
    maxEntries := maxEntries, isRecording := true, nextId := 0 }

/-- snapshots.get(id) on the association list. -/
def lookupSnap (m : List (Nat × SVGDocument)) (k : Nat) : Option SVGDocument :=
  (m.find? (fun p => p.1 = k)).map (fun p => p.2)

/-- The eviction loop of record: while entries.length > maxEntries, shift the
oldest entry off the head, delete its snapshot, and decrement the cursor. -/
def evict (s : HistoryState) : HistoryState :=
  if s.entries.length > s.maxEntries then
    match _h : s.entries with
    | [] => s
    | e :: rest =>
        evict { s with entries := rest,
                       snapshots := s.snapshots.filter (fun p => p.1 ≠ e.id),
                       currentIndex := s.currentIndex - 1 }
  else s
termination_by s.entries.length
decreasing_by
  simp [_h]

/-- HistoryManager.record: no-op while recording is paused; otherwise
truncates everything after the cursor (deleting the truncated snapshots),
appends a new entry with a deep-copied snapshot, moves the cursor to the new
tail, and evicts from the head while over the maximum. -/
def record (action description : String) (doc : SVGDocument)
    (s : HistoryState) : HistoryState :=
  if !s.isRecording then s
  else
    let s :=
      if s.currentIndex < (s.entries.length : Int) - 1 then
        let keep := s.entries.take (s.currentIndex + 1).toNat
        let removed := s.entries.drop (s.currentIndex + 1).toNat
        { s with entries := keep,
                 snapshots := s.snapshots.filter
                   (fun p => removed.all (fun e => e.id ≠ p.1)) }
      else s
    let entry : HEntry := { id := s.nextId, action := action,
                            description := description }
    let s := { s with snapshots := s.snapshots ++ [(entry.id, doc)],
                      entries := s.entries ++ [entry],
                      currentIndex := (s.entries.length : Int),
                      nextId := s.nextId + 1 }
    evict s

/-- canUndo: the cursor is at or after entry 0. -/
def canUndo (s : HistoryState) : Bool := 0 ≤ s.currentIndex

/-- canRedo: the cursor is strictly before the tail. -/
def canRedo (s : HistoryState) : Bool :=
  s.currentIndex < (s.entries.length : Int) - 1

/-- HistoryManager.undo: returns the restored snapshot (a deep copy, which is
the identity here) and the updated state. -/
def undo (steps : Nat) (s : HistoryState) : Option SVGDocument × HistoryState :=
  if !canUndo s then (none, s)
  else
    let targetIndex : Int := max 0 (s.currentIndex - steps)
    if 0 < targetIndex then
      let s' := { s with currentIndex := targetIndex - 1 }
      ((s'.entries.get? (targetIndex - 1).toNat).bind
        (fun e => lookupSnap s'.snapshots e.id), s')
    else
      let s' := { s with currentIndex := -1 }
      ((s'.entries.get? 0).bind (fun e => lookupSnap s'.snapshots e.id), s')

/-- HistoryManager.redo: clamps the cursor forward to at most the tail and
returns the snapshot at the new cursor. -/
def redo (steps : Nat) (s : HistoryState) : Option SVGDocument × HistoryState :=
  if !canRedo s then (none, s)
  else
    let targetIndex : Int :=
      min ((s.entries.length : Int) - 1) (s.currentIndex + steps)
    let s' := { s with currentIndex := targetIndex }
    ((s'.entries.get? targetIndex.toNat).bind
      (fun e => lookupSnap s'.snapshots e.id), s')

/-- A recorded action: action name, description and the document snapshot
passed to record. -/
structure RecordedAction where
  action : String
  description : String
  doc : SVGDocument
deriving Repr

/-- Record a list of actions in order. -/
def recordAll (ts : List RecordedAction) (s : HistoryState) : HistoryState :=
  ts.foldl (fun s t => record t.action t.description t.doc s) s

/-- The documents stored for the entries, in entry order, via the snapshot
map. -/
def entriesDocs (s : HistoryState) : List (Option SVGDocument) :=
  s.entries.map (fun e => lookupSnap s.snapshots e.id)

/-! ### Layer manager (src/types/layer.ts, src/core/layer-manager.ts) -/

/-- The closed BlendMode union. -/
inductive BlendMode
  | normal | multiply | screen | overlay | darken | lighten
  | colorDodge | colorBurn | hardLight | softLight | difference
  | exclusion | hue | saturation | color | luminosity
deriving DecidableEq, Repr

/-- A layer: metadata plus the ordered membership list of element ids. -/
structure Layer where
  id : String
  name : String
  visible : Bool
  locked : Bool
  opacity : ℚ
  blendMode : Option BlendMode := none
  elements : List String
  parentId : Option String := none
deriving DecidableEq, Repr

/-- LayerOperationResult record. -/
structure LayerOperationResult where
  success : Bool
  layerId : Option String := none
  message : Option String := none
deriving DecidableEq, Repr

/-- The LayerManager instance state.  The id-generator counter state the
manager draws layer ids from is threaded explicitly as part of the state. -/
structure LMState where
  layers : List Layer
  activeLayerId : Option String
  counters : Counters

/-- getLayer: first layer with the given id, or none. -/
def getLayer (s : LMState) (layerId : String) : Option Layer :=
  s.layers.find? (fun l => l.id = layerId)

/-- Replace the first list entry satisfying the predicate (the object that a
find-then-mutate pair in the source updates in place). -/
def updateFirst (p : α → Bool) (f : α → α) : List α → List α
  | [] => []
  | x :: xs => if p x then f x :: xs else x :: updateFirst p f xs

/-- createLayer: builds a fresh layer (default name `Layer {count+1}`),
inserts at insertAt when it is a valid index, otherwise appends; the first
layer ever present becomes active. -/
def createLayer (s : LMState) (name : Option String) (insertAt : Option Int) :
    LayerOperationResult × LMState :=
  let (newId, c') := generateId .layer s.counters
  let layer : Layer :=
    { id := newId,
      name := name.getD ("Layer " ++ ⟨decDigits (s.layers.length + 1)⟩),
      visible := true, locked := false, opacity := 1, elements := [] }
  let layers :=
    match insertAt with
    | some i =>
        if 0 ≤ i ∧ i ≤ (s.layers.length : Int) then
          s.layers.take i.toNat ++ layer :: s.layers.drop i.toNat
        else s.layers ++ [layer]
    | none => s.layers ++ [layer]
  let active := if layers.length = 1 then some layer.id else s.activeLayerId
  ({ success := true, layerId := some layer.id,
     message := some ("layer " ++ layer.name ++ " created") },
   { layers := layers, activeLayerId := active, counters := c' })

/-- deleteLayer: fails when the id is absent or when it names the last
remaining layer; otherwise removes it and, if it was active, activates the
layer now at the same (or nearest lower) index. -/
def deleteLayer (s : LMState) (layerId : String) : LayerOperationResult × LMState :=
  match s.layers.findIdx? (fun l => l.id = layerId) with
  | none => ({ success := false, message := some "layer not found" }, s)
  | some index =>
      if s.layers.length = 1 then
        ({ success := false, message := some "cannot delete the last layer" }, s)
      else
        let layers' := s.layers.eraseIdx index
        let active :=
          if s.activeLayerId = some layerId then
            (layers'.get? (min index (layers'.length - 1))).map (fun l => l.id)
          else s.activeLayerId
        ({ success := true, message := some "layer deleted" },
         { s with layers := layers', activeLayerId := active })

/-- renameLayer. -/
def renameLayer (s : LMState) (layerId newName : String) :
    LayerOperationResult × LMState :=
  match getLayer s layerId with
  | none => ({ success := false, message := some "layer not found" }, s)
  | some _ =>
      ({ success := true, layerId := some layerId, message := some "renamed" },
       { s with layers := updateFirst (fun l => l.id = layerId)
                  (fun l => { l with name := newName }) s.layers })

/-- reorderLayer: moves the layer to newIndex when both indices are valid. -/
def reorderLayer (s : LMState) (layerId : String) (newIndex : Int) :
    LayerOperationResult × LMState :=
  match s.layers.findIdx? (fun l => l.id = layerId) with
  | none => ({ success := false, message := some "layer not found" }, s)
  | some currentIndex =>
      if newIndex < 0 ∨ (s.layers.length : Int) ≤ newIndex then
        ({ success := false, message := some "invalid index" }, s)
      else
        match s.layers.get? currentIndex with
        | none => ({ success := false, message := some "layer not found" }, s)
        | some layer =>
            let rest := s.layers.eraseIdx currentIndex
            let layers' := rest.take newIndex.toNat ++ layer ::
              rest.drop newIndex.toNat
            ({ success := true, layerId := some layerId,
               message := some "reordered" }, { s with layers := layers' })

/-- setLayerVisibility. -/
def setLayerVisibility (s : LMState) (layerId : String) (visible : Bool) :
    LayerOperationResult × LMState :=
  match getLayer s layerId with
  | none => ({ success := false, message := some "layer not found" }, s)
  | some _ =>
      ({ success := true, layerId := some layerId, message := some "visibility" },
       { s with layers := updateFirst (fun l => l.id = layerId)
                  (fun l => { l with visible := visible }) s.layers })

/-- setLayerLock. -/
def setLayerLock (s : LMState) (layerId : String) (locked : Bool) :
    LayerOperationResult × LMState :=
  match getLayer s layerId with
  | none => ({ success := false, message := some "layer not found" }, s)
  | some _ =>
      ({ success := true, layerId := some layerId, message := some "lock" },
       { s with layers := updateFirst (fun l => l.id = layerId)
                  (fun l => { l with locked := locked }) s.layers })

/-- setLayerOpacity: validates the range [0,1]. -/
def setLayerOpacity (s : LMState) (layerId : String) (opacity : ℚ) :
    LayerOperationResult × LMState :=
  match getLayer s layerId with
  | none => ({ success := false, message := some "layer not found" }, s)
  | some _ =>
      if opacity < 0 ∨ 1 < opacity then
        ({ success := false, message := some "opacity must be within 0..1" }, s)
      else
        ({ success := true, layerId := some layerId, message := some "opacity" },
         { s with layers := updateFirst (fun l => l.id = layerId)
                    (fun l => { l with opacity := opacity }) s.layers })

/-- setLayerBlendMode. -/
def setLayerBlendMode (s : LMState) (layerId : String) (mode : BlendMode) :
    LayerOperationResult × LMState :=
  match getLayer s layerId with
  | none => ({ success := false, message := some "layer not found" }, s)
  | some _ =>
      ({ success := true, layerId := some layerId, message := some "blend" },
       { s with layers := updateFirst (fun l => l.id = layerId)
                  (fun l => { l with blendMode := some mode }) s.layers })

/-- setActiveLayer. -/
def setActiveLayer (s : LMState) (layerId : String) :
    LayerOperationResult × LMState :=
  match getLayer s layerId with
  | none => ({ success := false, message := some "layer not found" }, s)
  | some _ =>
      ({ success := true, layerId := some layerId, message := some "active" },
       { s with activeLayerId := some layerId })

/-- addElementToLayer: fails when the layer is absent or locked; otherwise
removes the element id from whichever layer holds it (splice of the first
indexOf occurrence per layer) and appends it to the target's membership
list. -/
def addElementToLayer (s : LMState) (layerId elementId : String) :
    LayerOperationResult × LMState :=
  match getLayer s layerId with
  | none => ({ success := false, message := some "layer not found" }, s)
  | some layer =>
      if layer.locked then
        ({ success := false,
           message := some "cannot add an element to a locked layer" }, s)
      else
        let cleared := s.layers.map
          (fun l => { l with elements := l.elements.erase elementId })
        let layers' := updateFirst (fun l => l.id = layerId)
          (fun l => { l with elements := l.elements ++ [elementId] }) cleared
        ({ success := true, layerId := some layerId, message := some "added" },
         { s with layers := layers' })

/-- getActiveLayer. -/
def getActiveLayer (s : LMState) : Option Layer :=
  match s.activeLayerId with
  | none => none
  | some id => getLayer s id

/-- addElementToActiveLayer: adds to the active layer, lazily creating a
layer when none is active. -/
def addElementToActiveLayer (s : LMState) (elementId : String) :
    LayerOperationResult × LMState :=
  match getActiveLayer s with
  | some activeLayer => addElementToLayer s activeLayer.id elementId
  | none =>
      let (result, s') := createLayer s none none
      match result.layerId with
      | some newId => if result.success then addElementToLayer s' newId elementId
                      else (result, s')
      | none => (result, s')

/-- removeElementFromLayer: removes the first occurrence of the element id
from the first layer that holds it. -/
def removeElementFromLayer (s : LMState) (elementId : String) :
    LayerOperationResult × LMState :=
  match s.layers.find? (fun l => l.elements.contains elementId) with
  | none => ({ success := false, message := some "element not found" }, s)
  | some _ =>
      ({ success := true, message := some "removed" },
       { s with layers := updateFirst (fun l => l.elements.contains elementId)
                  (fun l => { l with elements := l.elements.erase elementId })
                  s.layers })

/-- mergeLayers: requires both layers to exist and be distinct; appends the
source's membership list onto the target (no lock check, no de-duplication)
and then deletes the source layer through deleteLayer. -/
def mergeLayers (s : LMState) (sourceLayerId targetLayerId : String) :
    LayerOperationResult × LMState :=
  match getLayer s sourceLayerId, getLayer s targetLayerId with
  | none, _ => ({ success := false, message := some "layer not found" }, s)
  | some _, none => ({ success := false, message := some "layer not found" }, s)
  | some sourceLayer, some _ =>
      if sourceLayerId = targetLayerId then
        ({ success := false, message := some "cannot merge a layer with itself" }, s)
      else
        let s₁ := { s with layers :=
          (updateFirst (fun l => l.id = targetLayerId)
            (fun l => { l with elements := l.elements ++ sourceLayer.elements })
            s.layers) }
        deleteLayer s₁ sourceLayerId

/-- duplicateLayer: copies metadata and the element-id list into a fresh
layer inserted right after the source. -/
def duplicateLayer (s : LMState) (layerId : String) :
    LayerOperationResult × LMState :=
  match getLayer s layerId with
  | none => ({ success := false, message := some "layer not found" }, s)
  | some layer =>
      let (newId, c') := generateId .layer s.counters
      let newLayer : Layer :=
        { id := newId, name := layer.name ++ " (copy)",
          visible := layer.visible, locked := false,
          opacity := layer.opacity, blendMode := layer.blendMode,
          elements := layer.elements }
      let index := (s.layers.findIdx? (fun l => l.id = layerId)).getD 0
      ({ success := true, layerId := some newId, message := some "duplicated" },
       { s with layers := s.layers.take (index + 1) ++ newLayer ::
                  s.layers.drop (index + 1),
                counters := c' })

/-- LayerManager.reset: drop everything and recreate the default layer. -/
def resetLM (s : LMState) : LMState :=
  (createLayer { layers := [], activeLayerId := none, counters := s.counters }
    (some "Layer 1") none).2

/-- fromJSON: replace the state wholesale, recreating a default layer when
the restored list is empty. -/
def lmFromJSON (s : LMState) (layers : List Layer)
    (activeLayerId : Option String) : LMState :=
  let s' : LMState := { layers := layers, activeLayerId := activeLayerId,
                        counters := s.counters }
  if s'.layers.length = 0 then (createLayer s' (some "Layer 1") none).2 else s'

/-- The LayerManager constructor state: no layers, then createLayer
("Layer 1"). -/
def initialLM : LMState :=
  (createLayer { layers := [], activeLayerId := none, counters := resetCounters }
    (some "Layer 1") none).2

/-- The closed set of mutating LayerManager operations, for quantifying over
operation sequences. -/
inductive LMOp
  | createLayer (name : Option String) (insertAt : Option Int)
  | deleteLayer (layerId : String)
  | renameLayer (layerId newName : String)
  | reorderLayer (layerId : String) (newIndex : Int)
  | setLayerVisibility (layerId : String) (visible : Bool)
  | setLayerLock (layerId : String) (locked : Bool)
  | setLayerOpacity (layerId : String) (opacity : ℚ)
  | setLayerBlendMode (layerId : String) (mode : BlendMode)
  | setActiveLayer (layerId : String)
  | addElementToLayer (layerId elementId : String)
  | addElementToActiveLayer (elementId : String)
  | removeElementFromLayer (elementId : String)
  | mergeLayers (sourceLayerId targetLayerId : String)
  | duplicateLayer (layerId : String)
  | reset
  | fromJSON (layers : List Layer) (activeLayerId : Option String)

/-- Apply one operation to the state (discarding the result object). -/
def applyLMOp (s : LMState) : LMOp → LMState
  | .createLayer n i => (createLayer s n i).2
  | .deleteLayer id => (deleteLayer s id).2
  | .renameLayer id n => (renameLayer s id n).2
  | .reorderLayer id i => (reorderLayer s id i).2
  | .setLayerVisibility id v => (setLayerVisibility s id v).2
  | .setLayerLock id v => (setLayerLock s id v).2
  | .setLayerOpacity id v => (setLayerOpacity s id v).2
  | .setLayerBlendMode id m => (setLayerBlendMode s id m).2
  | .setActiveLayer id => (setActiveLayer s id).2
  | .addElementToLayer lid eid => (addElementToLayer s lid eid).2
  | .addElementToActiveLayer eid => (addElementToActiveLayer s eid).2
  | .removeElementFromLayer eid => (removeElementFromLayer s eid).2
  | .mergeLayers src tgt => (mergeLayers s src tgt).2
  | .duplicateLayer id => (duplicateLayer s id).2
  | .reset => resetLM s
  | .fromJSON ls a => lmFromJSON s ls a

/-- Run a sequence of operations from a state. -/
def runLMOps (s : LMState) (ops : List LMOp) : LMState :=
  ops.foldl applyLMOp s

/-! ### Tool layer for canvas creation (src/tools/canvas.ts) -/

/-- The outcome of a tool call as seen across the tool boundary: either the
handler's structured result or a validation/error response. -/
structure ToolCallResult where
  success : Bool
  isError : Bool
  message : String
deriving DecidableEq, Repr

/-- The module-level session: the nullable current-document,
current-layer-manager and current-history-manager singletons, plus the
id-generator counter state shared by all of them. -/
structure Session where
  currentDocument : Option MgrState
  counters : Counters
  currentLayerManager : Option LMState
  currentHistoryManager : Option HistoryState

/-- The SVGDocumentManager constructor: an empty document with the default
800x600 config (counters reset by createEmptyDocument). -/
def mgrConstructor : MgrState × Counters :=
  let (doc, c) := createEmptyDocument
    { width := 800, height := 600,
      viewBox := some { minX := 0, minY := 0, width := 800, height := 600 } }
  ({ document := doc, filePath := none, isDirty := false }, c)

/-- The input-schema constraint the svg_create tool declares for its width
and height arguments: z.number().min(1).max(10000). -/
def svgCreateParamsValid (width height : ℚ) : Prop :=
  1 ≤ width ∧ width ≤ 10000 ∧ 1 ≤ height ∧ height ≤ 10000

instance (w h : ℚ) : Decidable (svgCreateParamsValid w h) := by
  unfold svgCreateParamsValid; infer_instance

/-- The svg_create tool: the dispatch layer validates the arguments against
the declared schema and refuses the call (error response, handler never runs)
when they fail; otherwise the handler builds a fresh SVGDocumentManager,
creates the canvas, installs it as the current document and resets the
layer-manager and history-manager singletons to null. -/
def svgCreateTool (width height : ℚ) (options : CreateOptions)
    (sess : Session) : ToolCallResult × Session :=
  if svgCreateParamsValid width height then
    let (mgr0, _c0) := mgrConstructor
    let (mgr1, c1) := mgr0.create width height options
    ({ success := true, isError := false, message := "canvas created" },
     { currentDocument := some mgr1, counters := c1,
       currentLayerManager := none, currentHistoryManager := none })
  else
    ({ success := false, isError := true,
       message := "invalid arguments: width and height must be between 1 and 10000" },
     sess)

/-! ### Shared sample data -/

/-- An empty 800x600 document. -/
def sampleDoc : SVGDocument :=
  { config := { width := 800, height := 600 }, defs := {}, elements := [] }

/-- A sample rectangle element. -/
def sampleRect : SVGElement :=
  .rect { id := "rect-1", fill := some "#ff0000" } 10 10 100 50 none none

/-- A sample circle element. -/
def sampleCircle : SVGElement :=
  .circle { id := "circle-1" } 200 200 30

/-- The document holding just the rectangle. -/
def rectDoc : SVGDocument := { sampleDoc with elements := [sampleRect] }

/-- The document holding the rectangle and the circle. -/
def bothDoc : SVGDocument :=
  { sampleDoc with elements := [sampleRect, sampleCircle] }

/-! ### Claim C2: dimension validation of canvas creation -/

/-- A manager whose live document holds one element, so that replacement is
observable. -/
def c2Mgr : MgrState := { document := rectDoc }

/-- A concrete empty session. -/
def emptySession : Session :=
  { currentDocument := none, counters := resetCounters,
    currentLayerManager := none, currentHistoryManager := none }

/-- A patch that carries an id field. -/
def c8Patch : ElementPatch := { id := some "hacked" }

/-- A manager holding the sample rectangle at the top level. -/
def c8Mgr : MgrState := { document := rectDoc }

/-- A two-entry history with the cursor on the tail entry. -/
def c3State : HistoryState :=
  { entries := [⟨0, "draw_rect", "rect"⟩, ⟨1, "draw_circle", "circle"⟩],
    snapshots := [(0, rectDoc), (1, bothDoc)],
    currentIndex := 1, maxEntries := 100, isRecording := true, nextId := 2 }

/-- The entry built for the i-th recorded action. -/
def mkHEntry (p : Nat × RecordedAction) : HEntry :=
  ⟨p.1, p.2.action, p.2.description⟩

/-- The snapshot pair stored for the i-th recorded action. -/
def mkSnap (p : Nat × RecordedAction) : Nat × SVGDocument :=
  (p.1, p.2.doc)

/-- The state reached by recording the actions ts in order over an empty
history with maximum k: the most recent min(|ts|, k) actions survive, with
their original indices as entry ids, and the cursor sits on the last one. -/
def canonicalState (ts : List RecordedAction) (k : Nat) : HistoryState :=
  { entries := ((ts.drop (ts.length - min ts.length k)).enumFrom
      (ts.length - min ts.length k)).map mkHEntry,
    snapshots := ((ts.drop (ts.length - min ts.length k)).enumFrom
      (ts.length - min ts.length k)).map mkSnap,
    currentIndex := ((min ts.length k : Nat) : Int) - 1,
    maxEntries := k, isRecording := true, nextId := ts.length }

/-- Total number of occurrences (with multiplicity) of an element id across
all membership lists. -/
def elemTotalCount (s : LMState) (e : String) : Nat :=
  (s.layers.map (fun l => l.elements.count e)).sum

/-- Number of layers whose membership list contains an element id. -/
def layersContaining (s : LMState) (e : String) : Nat :=
  (s.layers.filter (fun l => l.elements.contains e)).length

/-- The membership-multiplicity invariant: every element id occurs at most
once across all membership lists. -/
def MultInv (s : LMState) : Prop := ∀ e : String, elemTotalCount s e ≤ 1

/-- A concrete unlocked source layer holding one element. -/
def c10Source : Layer :=
  { id := "layer-1", name := "Layer 1", visible := true, locked := false,
    opacity := 1, elements := ["rect-1"] }

/-- A concrete locked target layer holding one element. -/
def c10Target : Layer :=
  { id := "layer-2", name := "Layer 2", visible := true, locked := true,
    opacity := 1, elements := ["circle-1"] }

/-- A concrete LayerManager state with the two layers above. -/
def c10State : LMState :=
  { layers := [c10Source, c10Target], activeLayerId := some "layer-1",
    counters := fun _ => 2 }

/-- An id string is dominated by a counter state when every way of reading
it as a generated id stays at or below the counter of its kind. -/
def Dominated (c : Counters) (id : String) : Prop :=
  ∀ (t : IdKind) (n : Nat), id = genName t n → n ≤ c t

/-- A group whose ids already have the exact shape of the next generated
ids: cloning it from fresh counters reuses them. -/
def c9CtrG : SVGElement :=
  SVGElement.group { id := "group-1" }
    [SVGElement.rect { id := "rect-1" } 0 0 1 1 none none]

/-- A group whose ids are not of generated shape (no dash), so any counter
state dominates them. -/
def c9WitG : SVGElement :=
  SVGElement.group { id := "myGroup" }
    [SVGElement.rect { id := "myRect" } 0 0 1 1 none none]

/-- Claim C2, counterexample: the Document Manager's create operation does
not reject non-positive dimensions — at width -5, height 10 it succeeds
(create has no failure channel at all) and replaces the live Document with an
empty canvas whose config records width -5, so the claimed InvalidDimension
failure and the claimed preservation of the live Document both fail. -/
theorem c2_counterexample :
    (c2Mgr.create (-5) 10 {}).1.document.config.width = -5 ∧
    (c2Mgr.create (-5) 10 {}).1.document.elements = [] ∧
    c2Mgr.document.elements ≠ [] := by
  refine ⟨rfl, rfl, ?_⟩
  simp [c2Mgr, rectDoc, sampleDoc]

/-- Claim C2, amended: rejection of non-positive dimensions happens one layer
up, in the svg_create tool's declared input schema (width, height must be
between 1 and 10000): for width ≤ 0 or height ≤ 0 the call is refused with an
error response, the handler never runs and the session — in particular the
live Document — is unchanged. -/
theorem c2_create_validation_amended (width height : ℚ) (options : CreateOptions)
    (sess : Session) (h : width ≤ 0 ∨ height ≤ 0) :
    (svgCreateTool width height options sess).1.isError = true ∧
    (svgCreateTool width height options sess).1.success = false ∧
    (svgCreateTool width height options sess).2 = sess := by
  have hv : ¬ svgCreateParamsValid width height := by
    rintro ⟨h1, _, h3, _⟩
    rcases h with h | h <;> linarith
  simp [svgCreateTool, hv]

/-- Witness for the amended C2 theorem at width -5, height 10. -/
theorem c2_create_validation_amended_witness :
    (svgCreateTool (-5) 10 {} emptySession).1.isError = true ∧
    (svgCreateTool (-5) 10 {} emptySession).2 = emptySession := by
  have h := c2_create_validation_amended (-5) 10 {} emptySession
    (Or.inl (by norm_num))
  exact ⟨h.1, h.2.2⟩

/-! ### Claim C8: update and the element identifier -/

/-- Claim C8, counterexample: a partial-changes object that contains an id
field does overwrite the identifier — both the element-model update (object
spread) and the Document Manager's updateElement (Object.assign) replace the
stored identifier "rect-1" by "hacked". -/
theorem c8_counterexample :
    (updateElement sampleRect c8Patch).elemId = "hacked" ∧
    sampleRect.elemId = "rect-1" ∧
    (c8Mgr.updateElement "rect-1" c8Patch).2.document.elements.map
      SVGElement.elemId = ["hacked"] := by
  refine ⟨rfl, rfl, ?_⟩
  simp [c8Mgr, rectDoc, sampleDoc, sampleRect, MgrState.updateElement,
    updateInList, updateElement, SVGElement.withAttrs, SVGElement.attrs,
    SVGElement.elemId, mergeAttrs, c8Patch]

/-- The element-level id of the result of withAttrs. -/
theorem elemId_withAttrs (e : SVGElement) (a : ElemAttrs) :
    (e.withAttrs a).elemId = a.id := by
  cases e <;> rfl

/-- updateElement keeps the identifier whenever the patch has no id field. -/
theorem elemId_updateElement (e : SVGElement) (p : ElementPatch)
    (hp : p.id = none) : (updateElement e p).elemId = e.elemId := by
  rw [updateElement, elemId_withAttrs]
  simp [mergeAttrs, hp, SVGElement.elemId]

/-- updateElement never changes the id list of an element tree when the
patch carries no id. -/
theorem elementIds_updateElement (p : ElementPatch) (hp : p.id = none)
    (e : SVGElement) : elementIds (updateElement e p) = elementIds e := by
  cases e <;>
    simp [updateElement, SVGElement.withAttrs, SVGElement.attrs, elementIds,
      mergeAttrs, hp, SVGElement.elemId]

/-- updateInList never changes the id list of the element forest when the
patch carries no id field. -/
theorem elementIdsList_updateInList (p : ElementPatch) (hp : p.id = none) :
    ∀ (es : List SVGElement) (id : String),
      elementIdsList (updateInList es id p).1 = elementIdsList es := by
  have H : ∀ (n : Nat) (es : List SVGElement), sizeOf es = n → ∀ id : String,
      elementIdsList (updateInList es id p).1 = elementIdsList es := by
    intro n
    induction n using Nat.strong_induction_on with
    | _ n ih =>
      intro es hsz id
      match es with
      | [] => simp [updateInList]
      | e :: rest =>
        by_cases hid : e.elemId = id
        · unfold updateInList
          rw [if_pos hid]
          simp [elementIdsList, elementIds_updateElement p hp e]
        · have hrest : elementIdsList (updateInList rest id p).1 =
              elementIdsList rest := by
            refine ih (sizeOf rest) ?_ rest rfl id
            subst hsz
            cases e <;> simp
          cases e with
          | group a cs =>
            have hcs : elementIdsList (updateInList cs id p).1 =
                elementIdsList cs := by
              refine ih (sizeOf cs) ?_ cs rfl id
              subst hsz
              simp
              omega
            simp only [updateInList, hid, if_neg hid]
            by_cases hfound : (updateInList cs id p).2
            · simp [hfound, elementIdsList, elementIds, hcs]
            · simp [hfound, elementIdsList, elementIds, hrest]
          | rect a x y w h rx ry =>
            simp [updateInList, hid, elementIdsList, hrest]
          | circle a cx cy r =>
            simp [updateInList, hid, elementIdsList, hrest]
          | ellipse a cx cy rx ry =>
            simp [updateInList, hid, elementIdsList, hrest]
          | line a x1 y1 x2 y2 =>
            simp [updateInList, hid, elementIdsList, hrest]
          | polyline a ps =>
            simp [updateInList, hid, elementIdsList, hrest]
          | polygon a ps =>
            simp [updateInList, hid, elementIdsList, hrest]
          | path a d =>
            simp [updateInList, hid, elementIdsList, hrest]
          | text a x y s f =>
            simp [updateInList, hid, elementIdsList, hrest]
          | textpath a pid s =>
            simp [updateInList, hid, elementIdsList, hrest]
          | image a href x y w h =>
            simp [updateInList, hid, elementIdsList, hrest]
          | use a href =>
            simp [updateInList, hid, elementIdsList, hrest]
  intro es id
  exact H (sizeOf es) es rfl id

/-- Claim C8, amended: update never changes an element's identifier provided
the partial-changes object itself carries no id field — then the
element-model update keeps the identifier, and the Document Manager's
updateElement leaves every identifier in the stored tree (in particular that
of the updated element) unchanged.  A patch that does carry an id field
overwrites the identifier with it. -/
theorem c8_update_preserves_id_amended (p : ElementPatch) (hp : p.id = none) :
    (∀ e : SVGElement, (updateElement e p).elemId = e.elemId) ∧
    (∀ (s : MgrState) (id : String),
      elementIdsList (s.updateElement id p).2.document.elements =
        elementIdsList s.document.elements) := by
  refine ⟨fun e => elemId_updateElement e p hp, fun s id => ?_⟩
  rw [MgrState.updateElement]
  by_cases hfound : (updateInList s.document.elements id p).2
  · simp [hfound, elementIdsList_updateInList p hp]
  · simp [hfound]

/-- Witness for the amended C8 theorem: a fill-only patch on the sample
manager keeps the identifier. -/
theorem c8_update_preserves_id_amended_witness :
    (updateElement sampleRect { fill := some "#00ff00" }).elemId =
      sampleRect.elemId ∧
    elementIdsList (c8Mgr.updateElement "rect-1"
        { fill := some "#00ff00" }).2.document.elements =
      elementIdsList c8Mgr.document.elements := by
  have h := c8_update_preserves_id_amended { fill := some "#00ff00" } rfl
  exact ⟨h.1 sampleRect, h.2 c8Mgr "rect-1"⟩

/-! ### Claim C3: the undo algorithm -/

/-- Claim C3: undo(steps) follows the specified algorithm exactly.  With the
cursor at a valid entry (0 ≤ currentIndex < entries.length) and steps ≥ 1 it
computes target = max(0, currentIndex - steps); for target > 0 it moves the
cursor to target - 1 and returns the snapshot stored for the entry at that
position; for target = 0 it moves the cursor to -1 and returns the snapshot
stored for entry 0; with currentIndex < 0 it returns none and leaves the
state unchanged. -/
theorem c3_undo_algorithm (s : HistoryState) (steps : Nat) (hsteps : 1 ≤ steps) :
    (s.currentIndex < 0 → undo steps s = (none, s)) ∧
    (0 ≤ s.currentIndex → s.currentIndex < (s.entries.length : Int) →
      ((0 < max 0 (s.currentIndex - steps) →
        (undo steps s).2 =
          { s with currentIndex := max 0 (s.currentIndex - steps) - 1 } ∧
        (undo steps s).1 =
          (s.entries.get? (max 0 (s.currentIndex - steps) - 1).toNat).bind
            (fun e => lookupSnap s.snapshots e.id)) ∧
       (max 0 (s.currentIndex - steps) = 0 →
        (undo steps s).2 = { s with currentIndex := -1 } ∧
        (undo steps s).1 =
          (s.entries.get? 0).bind (fun e => lookupSnap s.snapshots e.id)))) := by
  constructor
  · intro h
    have : ¬ (0 ≤ s.currentIndex) := by omega
    simp [undo, canUndo, this]
  · intro h0 _hlen
    have hc : (!canUndo s) = false := by
      simp [canUndo]
      omega
    constructor
    · intro ht
      rw [undo, hc, if_neg (by decide), if_pos ht]
      exact ⟨rfl, rfl⟩
    · intro ht
      rw [undo, hc, if_neg (by decide), ht, if_neg (lt_irrefl 0)]
      exact ⟨rfl, rfl⟩

/-- Witness for C3 at the two-entry state with steps = 1: target = 0, so the
cursor moves to -1 and the snapshot of entry 0 is returned. -/
theorem c3_undo_algorithm_witness :
    (undo 1 c3State).2 = { c3State with currentIndex := -1 } ∧
    (undo 1 c3State).1 =
      (c3State.entries.get? 0).bind
        (fun e => lookupSnap c3State.snapshots e.id) :=
  ((c3_undo_algorithm c3State 1 (by decide)).2 (by decide) (by decide)).2
    (by decide)

/-! ### Claim C1: undo/redo over recorded snapshots -/

/-- evict is the identity while the entry count is within the maximum. -/
theorem evict_eq_self (s : HistoryState) (h : s.entries.length ≤ s.maxEntries) :
    evict s = s := by
  rw [evict]
  rw [if_neg (by omega)]

/-- record at the tail of a history with room left simply appends the entry
and its snapshot and advances the cursor. -/
theorem record_tail (s : HistoryState) (a b : String) (d : SVGDocument)
    (hcursor : s.currentIndex = (s.entries.length : Int) - 1)
    (hroom : s.entries.length + 1 ≤ s.maxEntries)
    (hrec : s.isRecording = true) :
    record a b d s =
      { s with snapshots := s.snapshots ++ [(s.nextId, d)],
               entries := s.entries ++ [⟨s.nextId, a, b⟩],
               currentIndex := (s.entries.length : Int),
               nextId := s.nextId + 1 } := by
  rw [record]
  rw [hrec]
  simp only [Bool.not_true, Bool.false_eq_true, if_false]
  rw [if_neg (by omega)]
  rw [evict_eq_self _ (by simp; omega)]
  simp [hrec]

/-- The post-state of recording d₁ over an empty history with room. -/
theorem record_one (M : Nat) (hM : 1 ≤ M) (a₁ b₁ : String) (d₁ : SVGDocument) :
    record a₁ b₁ d₁ (emptyHistory M) =
      { entries := [⟨0, a₁, b₁⟩], snapshots := [(0, d₁)], currentIndex := 0,
        maxEntries := M, isRecording := true, nextId := 1 } := by
  rw [record_tail _ _ _ _ (by simp [emptyHistory])
    (by simp [emptyHistory]; omega) rfl]
  simp [emptyHistory]

/-- The post-state of recording d₁ then d₂ over an empty history. -/
theorem record_two (M : Nat) (hM : 2 ≤ M) (a₁ b₁ a₂ b₂ : String)
    (d₁ d₂ : SVGDocument) :
    record a₂ b₂ d₂ (record a₁ b₁ d₁ (emptyHistory M)) =
      { entries := [⟨0, a₁, b₁⟩, ⟨1, a₂, b₂⟩],
        snapshots := [(0, d₁), (1, d₂)], currentIndex := 1,
        maxEntries := M, isRecording := true, nextId := 2 } := by
  rw [record_one M (by omega) a₁ b₁ d₁]
  rw [record_tail _ _ _ _ (by simp) (by simp; omega) rfl]
  simp

/-- Claim C1, counterexample: entries snapshot the post-state of each
mutation, and undo at the earliest boundary returns entry 0's snapshot, so
with a single recorded mutation undo() yields D1 (not the pre-state D0); and
in the spec's two-mutation scenario (rectangle recorded, then circle) the
redo() that follows undo() yields the rectangle-only document again, not the
document with both shapes. -/
theorem c1_counterexample :
    (undo 1 (record "draw_rect" "rect" rectDoc (emptyHistory 100))).1 =
      some rectDoc ∧
    rectDoc ≠ sampleDoc ∧
    (redo 1 (undo 1 (record "draw_circle" "circle" bothDoc
        (record "draw_rect" "rect" rectDoc (emptyHistory 100)))).2).1 =
      some rectDoc ∧
    rectDoc ≠ bothDoc := by
  rw [record_two 100 (by norm_num), record_one 100 (by norm_num)]
  refine ⟨?_, ?_, ?_, ?_⟩
  · simp [undo, canUndo, lookupSnap]
  · intro h
    simpa [rectDoc, sampleDoc] using congrArg (fun d => d.elements.length) h
  · simp [undo, redo, canUndo, canRedo, lookupSnap]
  · intro h
    simpa [rectDoc, bothDoc, sampleDoc]
      using congrArg (fun d => d.elements.length) h

/-- Claim C1, amended: snapshots record post-states only, so the history can
never restore the pre-history document D0.  With one recorded mutation
(post-state d₁), undo() returns d₁ itself, and so does the redo() after it.
In the two-mutation scenario (d₁ then d₂), undo() does yield d₁ (the
rectangle-only document), but the redo() immediately after yields d₁ again
(the cursor moves from -1 to 0); only a second redo() yields d₂ (both
shapes). -/
theorem c1_undo_redo_amended (M : Nat) (hM : 2 ≤ M) (a₁ b₁ a₂ b₂ : String)
    (d₁ d₂ : SVGDocument) :
    (undo 1 (record a₁ b₁ d₁ (emptyHistory M))).1 = some d₁ ∧
    (redo 1 (undo 1 (record a₁ b₁ d₁ (emptyHistory M))).2).1 = some d₁ ∧
    (undo 1 (record a₂ b₂ d₂ (record a₁ b₁ d₁ (emptyHistory M)))).1 = some d₁ ∧
    (redo 1 (undo 1 (record a₂ b₂ d₂
        (record a₁ b₁ d₁ (emptyHistory M)))).2).1 = some d₁ ∧
    (redo 1 (redo 1 (undo 1 (record a₂ b₂ d₂
        (record a₁ b₁ d₁ (emptyHistory M)))).2).2).1 = some d₂ := by
  rw [record_two M hM a₁ b₁ a₂ b₂ d₁ d₂, record_one M (by omega) a₁ b₁ d₁]
  refine ⟨?_, ?_, ?_, ?_, ?_⟩ <;>
    simp [undo, redo, canUndo, canRedo, lookupSnap]

/-- Witness for the amended C1 theorem at the concrete rectangle/circle
scenario. -/
theorem c1_undo_redo_amended_witness :
    (undo 1 (record "draw_circle" "circle" bothDoc
        (record "draw_rect" "rect" rectDoc (emptyHistory 100)))).1 =
      some rectDoc ∧
    (redo 1 (redo 1 (undo 1 (record "draw_circle" "circle" bothDoc
        (record "draw_rect" "rect" rectDoc (emptyHistory 100)))).2).2).1 =
      some bothDoc := by
  have h := c1_undo_redo_amended 100 (by norm_num) "draw_rect" "rect"
    "draw_circle" "circle" rectDoc bothDoc
  exact ⟨h.2.2.1, h.2.2.2.2⟩

/-! ### Claim C4: recording after undo discards the redo branch -/

/-- The post-state of recording D0, D1, D2 over an empty history. -/
theorem record_three (M : Nat) (hM : 3 ≤ M) (a₀ b₀ a₁ b₁ a₂ b₂ : String)
    (D0 D1 D2 : SVGDocument) :
    record a₂ b₂ D2 (record a₁ b₁ D1 (record a₀ b₀ D0 (emptyHistory M))) =
      { entries := [⟨0, a₀, b₀⟩, ⟨1, a₁, b₁⟩, ⟨2, a₂, b₂⟩],
        snapshots := [(0, D0), (1, D1), (2, D2)], currentIndex := 2,
        maxEntries := M, isRecording := true, nextId := 3 } := by
  rw [record_two M (by omega) a₀ b₀ a₁ b₁ D0 D1]
  rw [record_tail _ _ _ _ (by simp) (by simp; omega) rfl]
  simp

/-- Claim C4: after recording D0, D1, D2, undoing once and recording a new
mutation D3, the redo branch is discarded: only the entries for D0 and D3
remain (D2's entry and snapshot are removed), canRedo() is false, every
redo() call is a no-op returning none, and no stored snapshot equals D2. -/
theorem c4_record_discards_redo (M : Nat) (hM : 3 ≤ M)
    (a₀ b₀ a₁ b₁ a₂ b₂ a₃ b₃ : String) (D0 D1 D2 D3 : SVGDocument)
    (h0 : D2 ≠ D0) (h3 : D2 ≠ D3) :
    (record a₃ b₃ D3 (undo 1 (record a₂ b₂ D2 (record a₁ b₁ D1
        (record a₀ b₀ D0 (emptyHistory M))))).2).entries.map HEntry.id =
      [0, 3] ∧
    (record a₃ b₃ D3 (undo 1 (record a₂ b₂ D2 (record a₁ b₁ D1
        (record a₀ b₀ D0 (emptyHistory M))))).2).snapshots =
      [(0, D0), (3, D3)] ∧
    canRedo (record a₃ b₃ D3 (undo 1 (record a₂ b₂ D2 (record a₁ b₁ D1
        (record a₀ b₀ D0 (emptyHistory M))))).2) = false ∧
    (∀ steps : Nat,
      redo steps (record a₃ b₃ D3 (undo 1 (record a₂ b₂ D2 (record a₁ b₁ D1
        (record a₀ b₀ D0 (emptyHistory M))))).2) =
      (none, (record a₃ b₃ D3 (undo 1 (record a₂ b₂ D2 (record a₁ b₁ D1
        (record a₀ b₀ D0 (emptyHistory M))))).2))) ∧
    (∀ k : Nat,
      lookupSnap (record a₃ b₃ D3 (undo 1 (record a₂ b₂ D2 (record a₁ b₁ D1
        (record a₀ b₀ D0 (emptyHistory M))))).2).snapshots k ≠ some D2) := by
  rw [record_three M hM a₀ b₀ a₁ b₁ a₂ b₂ D0 D1 D2]
  have hundo : (undo 1
      ({ entries := [⟨0, a₀, b₀⟩, ⟨1, a₁, b₁⟩, ⟨2, a₂, b₂⟩],
         snapshots := [(0, D0), (1, D1), (2, D2)], currentIndex := 2,
         maxEntries := M, isRecording := true,
         nextId := 3 } : HistoryState)).2 =
      { entries := [⟨0, a₀, b₀⟩, ⟨1, a₁, b₁⟩, ⟨2, a₂, b₂⟩],
        snapshots := [(0, D0), (1, D1), (2, D2)], currentIndex := 0,
        maxEntries := M, isRecording := true, nextId := 3 } := by
    simp [undo, canUndo]
  rw [hundo]
  have hrec : record a₃ b₃ D3
      ({ entries := [⟨0, a₀, b₀⟩, ⟨1, a₁, b₁⟩, ⟨2, a₂, b₂⟩],
         snapshots := [(0, D0), (1, D1), (2, D2)], currentIndex := 0,
         maxEntries := M, isRecording := true,
         nextId := 3 } : HistoryState) =
      { entries := [⟨0, a₀, b₀⟩, ⟨3, a₃, b₃⟩],
        snapshots := [(0, D0), (3, D3)], currentIndex := 1,
        maxEntries := M, isRecording := true, nextId := 4 } := by
    rw [record]
    simp only [Bool.not_true, Bool.false_eq_true, if_false]
    rw [if_pos (by simp)]
    simp only [List.take, List.drop, List.all, List.filter]
    rw [evict_eq_self _ (by simp; omega)]
    simp [Int.toNat]
  rw [hrec]
  refine ⟨by simp, rfl, by simp [canRedo], ?_, ?_⟩
  · intro steps
    simp [redo, canRedo]
  · intro k
    simp only [lookupSnap, List.find?]
    by_cases hk0 : k = 0
    · subst hk0
      simp
      exact fun h => h0 h.symm
    · by_cases hk3 : k = 3
      · subst hk3
        simp
        exact fun h => h3 h.symm
      · simp [show ¬ ((0 : Nat) = k) by omega, show ¬ ((3 : Nat) = k) by omega]

/-- Witness for C4 at a concrete instance: maxEntries 100 and the concrete
documents of the drawing scenario (D0 empty, D1 rectangle, D2 both shapes,
D3 rectangle again). -/
theorem c4_record_discards_redo_witness :
    canRedo (record "a3" "b3" rectDoc (undo 1 (record "a2" "b2" bothDoc
      (record "a1" "b1" rectDoc (record "a0" "b0" sampleDoc
        (emptyHistory 100))))).2) = false ∧
    (∀ k : Nat,
      lookupSnap (record "a3" "b3" rectDoc (undo 1 (record "a2" "b2" bothDoc
        (record "a1" "b1" rectDoc (record "a0" "b0" sampleDoc
          (emptyHistory 100))))).2).snapshots k ≠ some bothDoc) := by
  have h := c4_record_discards_redo 100 (by norm_num) "a0" "b0" "a1" "b1"
    "a2" "b2" "a3" "b3" sampleDoc rectDoc bothDoc rectDoc
    (by
      intro h
      simpa [bothDoc, sampleDoc] using congrArg (fun d => d.elements.length) h)
    (by
      intro h
      simpa [bothDoc, rectDoc, sampleDoc]
        using congrArg (fun d => d.elements.length) h)
  exact ⟨h.2.2.1, h.2.2.2.2⟩

/-! ### Claim C5: bounded retention -/

/-- record with the cursor at the tail: append the entry and snapshot,
advance the cursor, then run the eviction loop. -/
theorem record_no_trunc (s : HistoryState) (a b : String) (d : SVGDocument)
    (hcursor : s.currentIndex = (s.entries.length : Int) - 1)
    (hrec : s.isRecording = true) :
    record a b d s = evict
      { s with snapshots := s.snapshots ++ [(s.nextId, d)],
               entries := s.entries ++ [⟨s.nextId, a, b⟩],
               currentIndex := (s.entries.length : Int),
               nextId := s.nextId + 1 } := by
  rw [record, hrec]
  simp only [Bool.not_true, Bool.false_eq_true, if_false]
  rw [if_neg (by omega)]
  simp [hrec]

/-- One pass of the eviction loop. -/
theorem evict_step (s : HistoryState) (e : HEntry) (rest : List HEntry)
    (hents : s.entries = e :: rest) (hlen : s.maxEntries < rest.length + 1) :
    evict s = evict
      { s with entries := rest,
               snapshots := s.snapshots.filter (fun p => p.1 ≠ e.id),
               currentIndex := s.currentIndex - 1 } := by
  obtain ⟨ents, snaps, ci, mx, rb, nid⟩ := s
  simp only at hents hlen
  subst hents
  rw [evict]
  rw [if_pos (by simpa using hlen)]

/-- One record step preserves the canonical-state characterization. -/
theorem record_canonical_step (k : Nat) (hk : 1 ≤ k) (ts : List RecordedAction)
    (t : RecordedAction) :
    record t.action t.description t.doc (canonicalState ts k) =
      canonicalState (ts ++ [t]) k := by
  have hmn : min ts.length k ≤ ts.length := Nat.min_le_left _ _
  have hlenD : (((ts.drop (ts.length - min ts.length k)).enumFrom
      (ts.length - min ts.length k)).map mkHEntry).length = min ts.length k := by
    simp [List.enumFrom_length, List.length_drop]
    omega
  rw [record_no_trunc _ _ _ _ (by simp [canonicalState, hlenD]) rfl]
  by_cases hcase : ts.length < k
  · -- still room: nothing is evicted
    have hmin : min ts.length k = ts.length := Nat.min_eq_left hcase.le
    have hmin' : min (ts.length + 1) k = ts.length + 1 := Nat.min_eq_left hcase
    rw [evict_eq_self _ (by simp [canonicalState, hlenD]; omega)]
    simp only [canonicalState, hmin, hmin', Nat.sub_self, List.drop_zero,
      List.enumFrom_append, List.map_append, List.length_append,
      List.length_singleton, List.length_map, List.enumFrom_length,
      HistoryState.mk.injEq]
    refine ⟨by simp [mkHEntry], by simp [mkSnap], ?_, trivial, trivial, trivial⟩
    omega
  · -- full: exactly one entry is evicted from the head
    have hkn : k ≤ ts.length := by omega
    have hmin : min ts.length k = k := Nat.min_eq_right hkn
    have hmin' : min (ts.length + 1) k = k := Nat.min_eq_right (by omega)
    have hlendrop : (ts.drop (ts.length - k)).length = k := by
      simp [List.length_drop]
      omega
    obtain ⟨x, xs, hdrop⟩ : ∃ x xs, ts.drop (ts.length - k) = x :: xs := by
      cases hD : ts.drop (ts.length - k) with
      | nil => rw [hD] at hlendrop; simp at hlendrop; omega
      | cons x xs => exact ⟨x, xs, rfl⟩
    have hxs : xs.length = k - 1 := by
      rw [hdrop] at hlendrop
      simp at hlendrop
      omega
    have hxsdrop : xs = ts.drop (ts.length - k + 1) := by
      have h1 : xs = (ts.drop (ts.length - k)).drop 1 := by rw [hdrop]; rfl
      rw [h1, List.drop_drop]
    simp only [canonicalState, hmin, hdrop, List.enumFrom_cons, List.map_cons,
      List.cons_append, hlenD]
    rw [evict_step _ (mkHEntry (ts.length - k, x))
      (List.map mkHEntry (List.enumFrom (ts.length - k + 1) xs) ++
        [⟨ts.length, t.action, t.description⟩])
      (by simp) (by simp [hxs] <;> omega)]
    rw [evict_eq_self _ (by simp [hxs] <;> omega)]
    have hsplitshort : (ts ++ [t]).length - min (ts ++ [t]).length k =
        ts.length - k + 1 := by
      simp [hmin']
      omega
    have hdropshort : (ts ++ [t]).drop (ts.length - k + 1) = xs ++ [t] := by
      rw [List.drop_append_of_le_length (by omega), ← hxsdrop]
    simp only [canonicalState, hsplitshort, hdropshort, List.enumFrom_append,
      List.map_append, HistoryState.mk.injEq]
    have hidx : ts.length - k + 1 + xs.length = ts.length := by omega
    rw [hidx]
    refine ⟨by simp [mkHEntry], ?_, ?_, trivial, trivial, by simp⟩
    · -- snapshots: the filter drops exactly the evicted head's pair
      have hkeep : ∀ p ∈ (List.map mkSnap (List.enumFrom (ts.length - k + 1) xs)
          ++ [(ts.length, t.doc)]),
          (decide (p.1 ≠ (mkHEntry (ts.length - k, x)).id)) = true := by
        intro p hp
        rcases List.mem_append.mp hp with hp | hp
        · rcases List.mem_map.mp hp with ⟨q, hq, rfl⟩
          have h1 := List.le_fst_of_mem_enumFrom hq
          simp only [mkSnap, mkHEntry, ne_eq, decide_eq_true_eq]
          omega
        · rcases List.mem_singleton.mp hp with rfl
          simp only [mkHEntry, ne_eq, decide_eq_true_eq]
          omega
      rw [List.filter_cons]
      rw [show (decide ((mkSnap (ts.length - k, x)).1 ≠
          (mkHEntry (ts.length - k, x)).id)) = false by simp [mkSnap, mkHEntry]]
      simp only [Bool.false_eq_true, if_false]
      rw [List.filter_eq_self.mpr hkeep]
      simp [mkSnap]
    · simp only [List.length_cons, List.length_map, List.enumFrom_length, hxs,
        List.length_append, List.length_nil, Nat.zero_add,
        List.length_singleton]
      rw [hmin']
      omega

/-- recordAll from an empty history reaches exactly the canonical state. -/
theorem recordAll_canonical (k : Nat) (hk : 1 ≤ k) (ts : List RecordedAction) :
    recordAll ts (emptyHistory k) = canonicalState ts k := by
  induction ts using List.reverseRecOn with
  | nil => simp [recordAll, canonicalState, emptyHistory, HistoryState.mk.injEq]
  | append_singleton ts t ih =>
      have hfold : recordAll (ts ++ [t]) (emptyHistory k) =
          record t.action t.description t.doc (recordAll ts (emptyHistory k)) := by
        simp [recordAll]
      rw [hfold, ih, record_canonical_step k hk]

/-- Snapshot lookup over the canonical association list: with pairwise
distinct keys, every stored pair is found. -/
theorem lookupSnap_mem (D : List (Nat × RecordedAction))
    (hnd : (D.map Prod.fst).Nodup) (p : Nat × RecordedAction) (hp : p ∈ D) :
    lookupSnap (D.map mkSnap) p.1 = some p.2.doc := by
  induction D with
  | nil => cases hp
  | cons d D ih =>
    rcases List.mem_cons.mp hp with rfl | hp
    · simp [lookupSnap, mkSnap]
    · have hne : d.1 ≠ p.1 := by
        intro h
        exact (List.nodup_cons.mp hnd).1 (h ▸ List.mem_map_of_mem Prod.fst hp)
      simp only [List.map_cons, lookupSnap, List.find?]
      rw [show (decide ((mkSnap d).1 = p.1)) = false by simp [mkSnap, hne]]
      exact ih (List.nodup_cons.mp hnd).2 hp

/-- Claim C5: with maxEntries = k ≥ 1, recording k + 5 actions from an empty
history leaves exactly k entries — the snapshots of the most recent k
actions, in order (the oldest 5 are evicted from the head) — and the cursor
still points at the most recent entry, index k - 1. -/
theorem c5_bounded_retention (k : Nat) (hk : 1 ≤ k) (ts : List RecordedAction)
    (hlen : ts.length = k + 5) :
    (recordAll ts (emptyHistory k)).entries.length = k ∧
    (recordAll ts (emptyHistory k)).currentIndex = (k : Int) - 1 ∧
    entriesDocs (recordAll ts (emptyHistory k)) =
      (ts.drop 5).map (fun t => some t.doc) := by
  rw [recordAll_canonical k hk ts]
  have hmin : min ts.length k = k := Nat.min_eq_right (by omega)
  have hsub : ts.length - min ts.length k = 5 := by omega
  refine ⟨?_, ?_, ?_⟩
  · simp [canonicalState, hsub, List.length_drop]
    omega
  · simp [canonicalState, hmin]
  · have hnd : (((ts.drop 5).enumFrom 5).map Prod.fst).Nodup := by
      rw [List.enumFrom_map_fst]
      exact List.nodup_range' _ _
    simp only [entriesDocs, canonicalState, hsub, List.map_map]
    have hpt : ∀ p ∈ (ts.drop 5).enumFrom 5,
        ((fun e => lookupSnap ((((ts.drop 5).enumFrom 5)).map mkSnap) e.id) ∘
          mkHEntry) p = some p.2.doc := by
      intro p hp
      exact lookupSnap_mem _ hnd p hp
    rw [List.map_congr_left hpt]
    have := List.enumFrom_map_snd 5 (ts.drop 5)
    calc ((ts.drop 5).enumFrom 5).map (fun p => some p.2.doc)
        = (((ts.drop 5).enumFrom 5).map Prod.snd).map
            (fun a => some a.doc) := by rw [List.map_map]; rfl
      _ = (ts.drop 5).map (fun a => some a.doc) := by
            rw [List.enumFrom_map_snd]

/-- Witness for C5 at k = 2 with seven concrete recorded actions. -/
theorem c5_bounded_retention_witness :
    (recordAll [⟨"a", "d", sampleDoc⟩, ⟨"a", "d", sampleDoc⟩,
        ⟨"a", "d", sampleDoc⟩, ⟨"a", "d", sampleDoc⟩, ⟨"a", "d", sampleDoc⟩,
        ⟨"a", "d", rectDoc⟩, ⟨"a", "d", bothDoc⟩]
      (emptyHistory 2)).entries.length = 2 ∧
    entriesDocs (recordAll [⟨"a", "d", sampleDoc⟩, ⟨"a", "d", sampleDoc⟩,
        ⟨"a", "d", sampleDoc⟩, ⟨"a", "d", sampleDoc⟩, ⟨"a", "d", sampleDoc⟩,
        ⟨"a", "d", rectDoc⟩, ⟨"a", "d", bothDoc⟩]
      (emptyHistory 2)) = [some rectDoc, some bothDoc] := by
  have h := c5_bounded_retention 2 (by norm_num)
    [⟨"a", "d", sampleDoc⟩, ⟨"a", "d", sampleDoc⟩, ⟨"a", "d", sampleDoc⟩,
     ⟨"a", "d", sampleDoc⟩, ⟨"a", "d", sampleDoc⟩, ⟨"a", "d", rectDoc⟩,
     ⟨"a", "d", bothDoc⟩] (by simp)
  exact ⟨h.1, h.2.2⟩

/-! ### Claim C6: last-layer protection and the at-least-one-layer
invariant -/

/-- updateFirst preserves the list length. -/
theorem updateFirst_length (p : α → Bool) (f : α → α) (l : List α) :
    (updateFirst p f l).length = l.length := by
  induction l with
  | nil => rfl
  | cons x xs ih =>
    by_cases h : p x <;> simp [updateFirst, h, ih]

/-- createLayer always leaves at least one layer. -/
theorem createLayer_pos (s : LMState) (n : Option String) (i : Option Int) :
    1 ≤ (createLayer s n i).2.layers.length := by
  rw [createLayer]
  cases i with
  | none => simp
  | some j =>
    simp only []
    split
    · simp
      omega
    · simp

/-- deleteLayer leaves at least one layer whenever one existed. -/
theorem deleteLayer_pos (s : LMState) (id : String)
    (hs : 1 ≤ s.layers.length) : 1 ≤ (deleteLayer s id).2.layers.length := by
  rw [deleteLayer]
  cases hidx : s.layers.findIdx? (fun l => l.id = id) with
  | none => simpa using hs
  | some i =>
    by_cases h1 : s.layers.length = 1
    · simp [h1]
    · simp only [h1, if_false]
      simp [List.length_eraseIdx]
      split <;> omega

/-- addElementToLayer preserves the layer count. -/
theorem addElementToLayer_length (s : LMState) (lid eid : String) :
    (addElementToLayer s lid eid).2.layers.length = s.layers.length := by
  rw [addElementToLayer]
  cases hl : getLayer s lid with
  | none => simp
  | some layer =>
    by_cases hlock : layer.locked
    · simp [hlock]
    · simp [hlock, updateFirst_length]

/-- Every LayerManager operation preserves the at-least-one-layer
invariant. -/
theorem applyLMOp_pos (s : LMState) (hs : 1 ≤ s.layers.length) (op : LMOp) :
    1 ≤ (applyLMOp s op).layers.length := by
  cases op with
  | createLayer n i => exact createLayer_pos s n i
  | deleteLayer id => exact deleteLayer_pos s id hs
  | renameLayer id n =>
    rw [applyLMOp, renameLayer]
    cases getLayer s id <;> simp [updateFirst_length, hs]
  | reorderLayer id i =>
    rw [applyLMOp, reorderLayer]
    cases s.layers.findIdx? (fun l => l.id = id) with
    | none => simpa using hs
    | some currentIndex =>
      by_cases hrange : i < 0 ∨ (s.layers.length : Int) ≤ i
      · simpa [hrange] using hs
      · simp only [hrange, if_false]
        cases s.layers.get? currentIndex with
        | none => simpa using hs
        | some layer =>
          simp
          omega
  | setLayerVisibility id v =>
    rw [applyLMOp, setLayerVisibility]
    cases getLayer s id <;> simp [updateFirst_length, hs]
  | setLayerLock id v =>
    rw [applyLMOp, setLayerLock]
    cases getLayer s id <;> simp [updateFirst_length, hs]
  | setLayerOpacity id v =>
    rw [applyLMOp, setLayerOpacity]
    cases getLayer s id with
    | none => simpa using hs
    | some _ =>
      by_cases hv : v < 0 ∨ 1 < v <;> simp [hv, updateFirst_length, hs]
  | setLayerBlendMode id m =>
    rw [applyLMOp, setLayerBlendMode]
    cases getLayer s id <;> simp [updateFirst_length, hs]
  | setActiveLayer id =>
    rw [applyLMOp, setActiveLayer]
    cases getLayer s id <;> simp [hs]
  | addElementToLayer lid eid =>
    rw [applyLMOp]
    rw [addElementToLayer_length]
    exact hs
  | addElementToActiveLayer eid =>
    rw [applyLMOp, addElementToActiveLayer]
    cases getActiveLayer s with
    | some l =>
      rw [addElementToLayer_length]
      exact hs
    | none =>
      simp only []
      cases hres : (createLayer s none none).1.layerId with
      | none => exact createLayer_pos s none none
      | some newId =>
        by_cases hsucc : (createLayer s none none).1.success
        · simp only [hsucc, if_true]
          rw [addElementToLayer_length]
          exact createLayer_pos s none none
        · simp only [hsucc, Bool.false_eq_true, if_false]
          exact createLayer_pos s none none
  | removeElementFromLayer eid =>
    rw [applyLMOp, removeElementFromLayer]
    cases s.layers.find? (fun l => l.elements.contains eid) <;>
      simp [updateFirst_length, hs]
  | mergeLayers src tgt =>
    rw [applyLMOp, mergeLayers]
    cases getLayer s src with
    | none => simpa using hs
    | some ls =>
      cases getLayer s tgt with
      | none => simpa using hs
      | some lt =>
        by_cases hsame : src = tgt
        · simpa [hsame] using hs
        · simp only [hsame, if_false]
          exact deleteLayer_pos _ _ (by simpa [updateFirst_length] using hs)
  | duplicateLayer id =>
    rw [applyLMOp, duplicateLayer]
    cases getLayer s id with
    | none => simpa using hs
    | some layer =>
      simp
      omega
  | reset => exact createLayer_pos _ _ _
  | fromJSON ls a =>
    rw [applyLMOp, lmFromJSON]
    split
    · exact createLayer_pos _ _ _
    · next hcond =>
        simpa using Nat.one_le_iff_ne_zero.mpr (by simpa using hcond)

/-- Claim C6: deleteLayer on the sole remaining layer fails and leaves the
state (layer list, active layer) unchanged; and every sequence of
LayerManager operations from the initial state keeps at least one layer. -/
theorem c6_last_layer_protection (s : LMState) (layerId : String)
    (h : s.layers.length = 1) :
    ((deleteLayer s layerId).1.success = false ∧
      (deleteLayer s layerId).2 = s) ∧
    (∀ ops : List LMOp, 1 ≤ (runLMOps initialLM ops).layers.length) := by
  constructor
  · rw [deleteLayer]
    cases hidx : s.layers.findIdx? (fun l => l.id = layerId) with
    | none => simp
    | some i => simp [h]
  · have run_pos : ∀ (ops : List LMOp) (s0 : LMState),
        1 ≤ s0.layers.length → 1 ≤ (ops.foldl applyLMOp s0).layers.length := by
      intro ops
      induction ops with
      | nil => exact fun s0 hs0 => hs0
      | cons op ops ih =>
        exact fun s0 hs0 => ih _ (applyLMOp_pos _ hs0 op)
    intro ops
    rw [runLMOps]
    exact run_pos ops initialLM (createLayer_pos _ _ _)

/-- Witness for C6: the constructor state holds exactly one layer, and
deleting it fails and changes nothing. -/
theorem c6_last_layer_protection_witness :
    (deleteLayer initialLM "layer-1").1.success = false ∧
    (deleteLayer initialLM "layer-1").2 = initialLM :=
  (c6_last_layer_protection initialLM "layer-1"
    (by simp [initialLM, createLayer])).1

/-! ### Claim C7: single layer membership -/

/-- The number of containing layers is bounded by the total multiplicity. -/
theorem layersContaining_le (s : LMState) (e : String) :
    layersContaining s e ≤ elemTotalCount s e := by
  rw [layersContaining, elemTotalCount]
  induction s.layers with
  | nil => simp
  | cons l ls ih =>
    by_cases hc : l.elements.contains e
    · have hmem : e ∈ l.elements := by
        simpa using hc
      have hcount : 1 ≤ l.elements.count e := List.count_pos_iff.mpr hmem
      simp only [List.filter_cons, hc, if_true, List.length_cons,
        List.map_cons, List.sum_cons]
      omega
    · simp only [List.filter_cons, hc, Bool.false_eq_true, if_false,
        List.map_cons, List.sum_cons]
      omega

/-- Mapping a function that the update leaves invariant commutes away the
updateFirst. -/
theorem map_updateFirst_eq (g : α → β) (p : α → Bool) (f : α → α)
    (h : ∀ x, g (f x) = g x) (l : List α) :
    (updateFirst p f l).map g = l.map g := by
  induction l with
  | nil => rfl
  | cons x xs ih =>
    by_cases hp : p x <;> simp [updateFirst, hp, h, ih]

/-- updateFirst raises the mapped sum by at most the per-element bound. -/
theorem sum_map_updateFirst_le (g : α → Nat) (p : α → Bool) (f : α → α)
    (h : ∀ x, g (f x) ≤ g x + 1) (l : List α) :
    ((updateFirst p f l).map g).sum ≤ (l.map g).sum + 1 := by
  induction l with
  | nil => simp [updateFirst]
  | cons x xs ih =>
    by_cases hp : p x
    · simp only [updateFirst, hp, if_true, List.map_cons, List.sum_cons]
      have := h x
      omega
    · simp only [updateFirst, hp, Bool.false_eq_true, if_false,
        List.map_cons, List.sum_cons]
      omega

/-- addElementToLayer preserves the membership-multiplicity invariant. -/
theorem addElementToLayer_multInv (s : LMState) (lid eid : String)
    (hinv : MultInv s) : MultInv (addElementToLayer s lid eid).2 := by
  rw [addElementToLayer]
  cases hl : getLayer s lid with
  | none => simpa using hinv
  | some layer =>
    by_cases hlock : layer.locked
    · simpa [hlock] using hinv
    · simp only [hlock, Bool.false_eq_true, if_false]
      intro e
      by_cases he : e = eid
      · -- the moved element: erased everywhere, then added exactly once
        subst he
        rw [elemTotalCount]
        simp only []
        have herase : ((s.layers.map
            (fun l => { l with elements := l.elements.erase e })).map
            (fun l => l.elements.count e)).sum = 0 := by
          rw [List.map_map]
          refine List.sum_eq_zero ?_
          intro x hx
          rcases List.mem_map.mp hx with ⟨l, hlmem, rfl⟩
          simp only [Function.comp]
          rw [List.count_erase_self]
          have hmem2 : l.elements.count e ∈
              s.layers.map (fun l => l.elements.count e) :=
            List.mem_map_of_mem _ hlmem
          have hle := (List.single_le_sum
            (fun (x : Nat) _ => Nat.zero_le x) _ hmem2).trans (hinv e)
          omega
        have hb := sum_map_updateFirst_le
          (fun (l : Layer) => l.elements.count e)
          (fun (l : Layer) => l.id = lid)
          (fun (l : Layer) => { l with elements := l.elements ++ [e] })
          (fun x => by simp [List.count_append])
          (s.layers.map (fun l => { l with elements := l.elements.erase e }))
        rw [herase] at hb
        simpa using hb
      · -- any other element id: every count is untouched
        rw [elemTotalCount]
        simp only []
        have h1 : (updateFirst (fun l => l.id = lid)
            (fun l => { l with elements := l.elements ++ [eid] })
            (s.layers.map (fun l =>
              { l with elements := l.elements.erase eid }))).map
            (fun l => l.elements.count e) =
            (s.layers.map (fun l =>
              { l with elements := l.elements.erase eid })).map
            (fun l => l.elements.count e) := by
          refine map_updateFirst_eq _ _ _ ?_ _
          intro x
          simp [List.count_append, he]
        rw [h1, List.map_map]
        have h2 : ∀ l ∈ s.layers, ((fun (l : Layer) => l.elements.count e) ∘
            (fun (l : Layer) => { l with elements := l.elements.erase eid }))
              l = l.elements.count e := by
          intro l _
          simp only [Function.comp]
          exact List.count_erase_of_ne he _
        rw [List.map_congr_left h2]
        exact hinv e

/-- Claim C7: for every sequence of addElementToLayer calls from the initial
LayerManager state (successful or failed, locked targets included), each
element identifier is contained in at most one layer's membership list. -/
theorem c7_single_membership (calls : List (String × String)) (e : String) :
    layersContaining
      (calls.foldl (fun s c => (addElementToLayer s c.1 c.2).2) initialLM)
      e ≤ 1 := by
  have hrun : ∀ (cs : List (String × String)) (s0 : LMState), MultInv s0 →
      MultInv (cs.foldl (fun s c => (addElementToLayer s c.1 c.2).2) s0) := by
    intro cs
    induction cs with
    | nil => exact fun s0 h => h
    | cons c cs ih =>
      exact fun s0 h => ih _ (addElementToLayer_multInv _ c.1 c.2 h)
  have hinit : MultInv initialLM := by
    intro x
    simp [elemTotalCount, initialLM, createLayer]
  exact (layersContaining_le _ e).trans (hrun calls initialLM hinit e)

/-! ### Claim C10: mergeLayers and locked targets -/

/-- updateFirst with an update that does not change a predicate's value
leaves findIdx? for that predicate unchanged. -/
theorem findIdx?_updateFirst (q p : α → Bool) (f : α → α)
    (h : ∀ x, q (f x) = q x) (l : List α) :
    ∀ n, List.findIdx? q (updateFirst p f l) n = List.findIdx? q l n := by
  induction l with
  | nil => intro n; rfl
  | cons x xs ih =>
    intro n
    by_cases hp : p x
    · simp only [updateFirst, hp, if_true, List.findIdx?_cons, h x]
    · simp only [updateFirst, hp, Bool.false_eq_true, if_false,
        List.findIdx?_cons, ih]

/-- find? after updating the first match of the same predicate returns the
updated element, provided the update preserves the predicate. -/
theorem find?_updateFirst_self (p : α → Bool) (f : α → α)
    (h : ∀ x, p (f x) = p x) (l : List α) :
    (updateFirst p f l).find? p = (l.find? p).map f := by
  induction l with
  | nil => rfl
  | cons x xs ih =>
    by_cases hp : p x
    · simp [updateFirst, hp, List.find?_cons, h x]
    · simp [updateFirst, hp, List.find?_cons, ih]

/-- Erasing an index whose element fails the predicate leaves find?
unchanged. -/
theorem find?_eraseIdx_of_not (q : α → Bool) :
    ∀ (l : List α) (i : Nat) (x : α), l.get? i = some x → q x = false →
    (l.eraseIdx i).find? q = l.find? q := by
  intro l
  induction l with
  | nil => intro i x hx _; cases hx
  | cons y ys ih =>
    intro i x hx hqx
    cases i with
    | zero =>
      simp only [List.get?] at hx
      cases hx
      simp [List.eraseIdx, List.find?_cons, hqx]
    | succ i =>
      simp only [List.get?] at hx
      by_cases hqy : q y
      · simp [List.eraseIdx, List.find?_cons, hqy]
      · simp only [List.eraseIdx, List.find?_cons, hqy, Bool.false_eq_true,
          if_false, cond_false]
        exact ih i x hx hqx

/-- A successful findIdx? names an element satisfying the predicate. -/
theorem findIdx?_some_get (q : α → Bool) (l : List α) (i : Nat)
    (h : l.findIdx? q = some i) : ∃ x, l.get? i = some x ∧ q x = true := by
  rcases List.findIdx?_eq_some_iff_getElem.mp h with ⟨hlt, hq, _⟩
  exact ⟨l[i], by simp [List.get?_eq_getElem?, List.getElem?_eq_getElem hlt],
    hq⟩

/-- A successful find? yields a successful findIdx?. -/
theorem findIdx?_isSome_of_find? (q : α → Bool) :
    ∀ (l : List α) (x : α), l.find? q = some x →
    ∀ n, ∃ i, List.findIdx? q l n = some i := by
  intro l
  induction l with
  | nil => intro x h; cases h
  | cons y ys ih =>
    intro x h n
    rw [List.find?_cons] at h
    by_cases hqy : q y
    · exact ⟨n, by simp [List.findIdx?_cons, hqy]⟩
    · simp only [hqy, cond_false] at h
      rcases ih x h (n + 1) with ⟨i, hi⟩
      exact ⟨i, by rw [List.findIdx?_cons, if_neg hqy]; exact hi⟩

/-- A list holding two distinct members has at least two entries. -/
theorem two_le_length_of_mem (a b : α) (l : List α) (ha : a ∈ l) (hb : b ∈ l)
    (hne : a ≠ b) : 2 ≤ l.length := by
  match l with
  | [] => cases ha
  | [x] =>
    rcases List.mem_singleton.mp ha with rfl
    rcases List.mem_singleton.mp hb with rfl
    exact absurd rfl hne
  | x :: y :: rest => simp only [List.length_cons]; omega

/-- Claim C10: merging a source layer into a locked target succeeds and
appends all of the source's element ids onto the locked target's membership
list, even though addElementToLayer fails on that same locked target. -/
theorem c10_merge_bypasses_lock (s : LMState) (src tgt : String)
    (ls lt : Layer) (hsrc : getLayer s src = some ls)
    (htgt : getLayer s tgt = some lt) (hne : src ≠ tgt)
    (hlock : lt.locked = true) :
    (mergeLayers s src tgt).1.success = true ∧
    getLayer (mergeLayers s src tgt).2 tgt =
      some { lt with elements := lt.elements ++ ls.elements } ∧
    (∀ e : String, (addElementToLayer s tgt e).1.success = false) := by
  have hls_id : ls.id = src := by
    have := List.find?_some hsrc
    simpa using this
  have hlt_id : lt.id = tgt := by
    have := List.find?_some htgt
    simpa using this
  have hls_mem : ls ∈ s.layers := List.mem_of_find?_eq_some hsrc
  have hlt_mem : lt ∈ s.layers := List.mem_of_find?_eq_some htgt
  have hlen2 : 2 ≤ s.layers.length := by
    refine two_le_length_of_mem ls lt s.layers hls_mem hlt_mem ?_
    intro h
    exact hne (hls_id ▸ hlt_id ▸ congrArg Layer.id h)
  -- the updated layer list after the element transfer
  have hpres : ∀ x : Layer,
      (fun (l : Layer) => decide (l.id = tgt))
        ((fun (l : Layer) =>
          { l with elements := l.elements ++ ls.elements }) x) =
      (fun (l : Layer) => decide (l.id = tgt)) x := fun x => by simp
  have hpres' : ∀ x : Layer,
      (fun (l : Layer) => decide (l.id = src))
        ((fun (l : Layer) =>
          { l with elements := l.elements ++ ls.elements }) x) =
      (fun (l : Layer) => decide (l.id = src)) x := fun x => by simp
  have hfind_tgt : (updateFirst (fun l => l.id = tgt)
      (fun l => { l with elements := l.elements ++ ls.elements })
      s.layers).find? (fun l => l.id = tgt) =
      some { lt with elements := lt.elements ++ ls.elements } := by
    rw [find?_updateFirst_self _ _ hpres]
    rw [show s.layers.find? (fun l => decide (l.id = tgt)) = some lt from htgt]
    rfl
  obtain ⟨i0, hi0⟩ := findIdx?_isSome_of_find? _ s.layers ls hsrc 0
  have hidx : (updateFirst (fun l => l.id = tgt)
      (fun l => { l with elements := l.elements ++ ls.elements })
      s.layers).findIdx? (fun l => l.id = src) = some i0 := by
    rw [findIdx?_updateFirst _ _ _ hpres']
    exact hi0
  have hlen1 : (updateFirst (fun l => l.id = tgt)
      (fun l => { l with elements := l.elements ++ ls.elements })
      s.layers).length = s.layers.length := updateFirst_length _ _ _
  rw [mergeLayers, hsrc, htgt]
  simp only [hne, if_false]
  rw [deleteLayer]
  simp only [hlen1, hidx]
  rw [if_neg (by omega)]
  refine ⟨rfl, ?_, ?_⟩
  · -- getLayer on the result still finds the (updated) target layer
    obtain ⟨x, hx, hqx⟩ := findIdx?_some_get _ _ _ hidx
    have hxid : x.id = src := by simpa using hqx
    rw [getLayer]
    simp only []
    rw [find?_eraseIdx_of_not _ _ i0 x hx (by simp [hxid]; exact hne)]
    exact hfind_tgt
  · intro e
    rw [addElementToLayer, htgt]
    simp [hlock]

/-- Witness for C10 at the concrete state: merging the source into the
locked target succeeds and transfers the membership, while a direct add to
the locked target fails. -/
theorem c10_merge_bypasses_lock_witness :
    (mergeLayers c10State "layer-1" "layer-2").1.success = true ∧
    getLayer (mergeLayers c10State "layer-1" "layer-2").2 "layer-2" =
      some { c10Target with elements := c10Target.elements ++
        c10Source.elements } ∧
    (addElementToLayer c10State "layer-2" "rect-9").1.success = false := by
  have h := c10_merge_bypasses_lock c10State "layer-1" "layer-2"
    c10Source c10Target rfl rfl (by decide) rfl
  exact ⟨h.1, h.2.1, h.2.2 "rect-9"⟩

/-! ### Claim C9: clone identifier freshness -/

/-- Unfolding decDigits below the base. -/
theorem decDigits_lt {n : Nat} (h : n < 10) :
    decDigits n = [decDigitChar n] := by
  rw [decDigits]
  exact dif_pos h

/-- Unfolding decDigits at or above the base. -/
theorem decDigits_ge {n : Nat} (h : ¬ n < 10) :
    decDigits n = decDigits (n / 10) ++ [decDigitChar (n % 10)] := by
  rw [decDigits]
  exact dif_neg h

/-- Digit characters are never the dash. -/
theorem decDigitChar_ne_dash (d : Nat) : decDigitChar d ≠ '-' := by
  unfold decDigitChar
  split <;> decide

/-- The dash never occurs among the digits of a number. -/
theorem dash_not_mem_decDigits (n : Nat) : '-' ∉ decDigits n := by
  induction n using Nat.strong_induction_on with
  | _ n ih =>
    by_cases h : n < 10
    · rw [decDigits_lt h]
      simp only [List.mem_singleton]
      exact fun hc => decDigitChar_ne_dash n hc.symm
    · rw [decDigits_ge h]
      intro hmem
      rcases List.mem_append.mp hmem with hmem | hmem
      · exact ih (n / 10) (Nat.div_lt_self (by omega) (by omega)) hmem
      · rcases List.mem_singleton.mp hmem with hc
        exact decDigitChar_ne_dash (n % 10) hc.symm

/-- The digit list is never empty. -/
theorem decDigits_ne_nil (n : Nat) : decDigits n ≠ [] := by
  by_cases h : n < 10
  · rw [decDigits_lt h]; simp
  · rw [decDigits_ge h]; simp

/-- Digit characters determine the digit below the base. -/
theorem decDigitChar_inj : ∀ a < 10, ∀ b < 10,
    decDigitChar a = decDigitChar b → a = b := by decide

/-- Appending a singleton is injective in both parts. -/
theorem append_singleton_inj {xs ys : List Char} {a b : Char}
    (h : xs ++ [a] = ys ++ [b]) : xs = ys ∧ a = b := by
  have h' := congrArg List.reverse h
  simp only [List.reverse_append, List.reverse_singleton,
    List.singleton_append, List.cons.injEq] at h'
  exact ⟨List.reverse_injective h'.2, h'.1⟩

/-- Decimal digit lists determine the number. -/
theorem decDigits_inj : ∀ m n : Nat, decDigits m = decDigits n → m = n := by
  intro m
  induction m using Nat.strong_induction_on with
  | _ m ih =>
    intro n h
    by_cases hm : m < 10 <;> by_cases hn : n < 10
    · rw [decDigits_lt hm, decDigits_lt hn] at h
      exact decDigitChar_inj m hm n hn (List.singleton_inj.mp h)
    · rw [decDigits_lt hm, decDigits_ge hn] at h
      have := congrArg List.length h
      simp at this
      exact absurd this (decDigits_ne_nil (n / 10))
    · rw [decDigits_ge hm, decDigits_lt hn] at h
      have := congrArg List.length h
      simp at this
      exact absurd this (decDigits_ne_nil (m / 10))
    · rw [decDigits_ge hm, decDigits_ge hn] at h
      rcases append_singleton_inj h with ⟨hdiv, hmod⟩
      have h1 : m / 10 = n / 10 :=
        ih (m / 10) (Nat.div_lt_self (by omega) (by omega)) (n / 10) hdiv
      have h2 : m % 10 = n % 10 :=
        decDigitChar_inj (m % 10) (Nat.mod_lt m (by omega)) (n % 10)
          (Nat.mod_lt n (by omega)) hmod
      omega

/-- The kind strings carry no dash. -/
theorem kindStr_no_dash : ∀ t : IdKind, '-' ∉ (kindStr t).data := by decide

/-- The kind strings are pairwise distinct. -/
theorem kindStr_inj : ∀ t₁ t₂ : IdKind, kindStr t₁ = kindStr t₂ → t₁ = t₂ := by
  decide

/-- Splitting at the first dash: concatenations with dash-free stems agree
only componentwise. -/
theorem append_no_dash_inj : ∀ (s₁ s₂ d₁ d₂ : List Char), '-' ∉ s₁ →
    '-' ∉ s₂ → s₁ ++ '-' :: d₁ = s₂ ++ '-' :: d₂ → s₁ = s₂ ∧ d₁ = d₂ := by
  intro s₁
  induction s₁ with
  | nil =>
    intro s₂ d₁ d₂ _ h2 h
    cases s₂ with
    | nil => simpa using h
    | cons c cs =>
      exfalso
      simp only [List.nil_append, List.cons_append, List.cons.injEq] at h
      exact h2 (h.1 ▸ List.mem_cons_self c cs)
  | cons c cs ih =>
    intro s₂ d₁ d₂ h1 h2 h
    cases s₂ with
    | nil =>
      exfalso
      simp only [List.nil_append, List.cons_append, List.cons.injEq] at h
      exact h1 (h.1 ▸ List.mem_cons_self c cs)
    | cons c' cs' =>
      simp only [List.cons_append, List.cons.injEq] at h
      rcases h with ⟨rfl, h⟩
      rcases ih cs' d₁ d₂ (fun hm => h1 (List.mem_cons_of_mem _ hm))
        (fun hm => h2 (List.mem_cons_of_mem _ hm)) h with ⟨rfl, rfl⟩
      exact ⟨rfl, rfl⟩

/-- The character data of a generated id. -/
theorem genName_data (t : IdKind) (n : Nat) :
    (genName t n).data = (kindStr t).data ++ '-' :: decDigits n := by
  rw [genName]
  rw [String.data_append, String.data_append]
  simp

/-- Generated id strings determine the kind and the counter value. -/
theorem genName_inj {t₁ t₂ : IdKind} {n₁ n₂ : Nat}
    (h : genName t₁ n₁ = genName t₂ n₂) : t₁ = t₂ ∧ n₁ = n₂ := by
  have hd := congrArg String.data h
  rw [genName_data, genName_data] at hd
  rcases append_no_dash_inj _ _ _ _ (kindStr_no_dash t₁) (kindStr_no_dash t₂)
    hd with ⟨hk, hdig⟩
  exact ⟨kindStr_inj t₁ t₂ (String.ext hk), decDigits_inj _ _ hdig⟩

/-- Every generated id contains a dash. -/
theorem dash_mem_genName (t : IdKind) (n : Nat) : '-' ∈ (genName t n).data := by
  rw [genName_data]
  exact List.mem_append_right _ (List.mem_cons_self _ _)

/-- The fresh id drawn by generateId. -/
theorem generateId_fst (t : IdKind) (c : Counters) :
    (generateId t c).1 = genName t (c t + 1) := rfl

/-- The bumped counter reads one higher at its own kind. -/
theorem generateId_snd_same (t : IdKind) (c : Counters) :
    (generateId t c).2 t = c t + 1 := by
  simp [generateId]

/-- The bumped counter is pointwise at least the old one. -/
theorem generateId_snd_mono (t : IdKind) (c : Counters) (t' : IdKind) :
    c t' ≤ (generateId t c).2 t' := by
  simp only [generateId]
  split
  · next h => subst h; omega
  · omega

/-- Unfolding cloneElement on a group. -/
theorem cloneElement_group (a : ElemAttrs) (cs : List SVGElement)
    (c : Counters) :
    cloneElement (SVGElement.group a cs) none c =
      (SVGElement.group { a with id := (generateId IdKind.group c).1 }
        (cloneElementList cs (generateId IdKind.group c).2).1,
       (cloneElementList cs (generateId IdKind.group c).2).2) := by
  simp [cloneElement, SVGElement.idKind]

/-- Unfolding cloneElement on a non-group element. -/
theorem cloneElement_nongroup (e : SVGElement) (c : Counters)
    (hng : ∀ a cs, e ≠ SVGElement.group a cs) :
    cloneElement e none c =
      (e.withAttrs { e.attrs with id := (generateId e.idKind c).1 },
       (generateId e.idKind c).2) := by
  cases e <;>
    first
    | exact absurd rfl (hng _ _)
    | simp [cloneElement, SVGElement.idKind, SVGElement.withAttrs,
        SVGElement.attrs]

/-- The id list of a non-group element after an attribute replacement. -/
theorem elementIds_withAttrs_nongroup (e : SVGElement) (a : ElemAttrs)
    (hng : ∀ a' cs, e ≠ SVGElement.group a' cs) :
    elementIds (e.withAttrs a) = [a.id] := by
  cases e <;>
    first
    | exact absurd rfl (hng _ _)
    | rfl

/-- Freshness of a non-group clone: one fresh id, counters bumped. -/
theorem clone_fresh_nongroup (e : SVGElement)
    (hng : ∀ a cs, e ≠ SVGElement.group a cs) (c : Counters) :
    (∀ t, c t ≤ (cloneElement e none c).2 t) ∧
    (∀ id ∈ elementIds (cloneElement e none c).1, ∃ t n, id = genName t n ∧
      c t < n ∧ n ≤ (cloneElement e none c).2 t) ∧
    (elementIds (cloneElement e none c).1).Nodup := by
  rw [cloneElement_nongroup e c hng]
  refine ⟨fun t => generateId_snd_mono _ c t, ?_, ?_⟩
  · intro id hid
    rw [elementIds_withAttrs_nongroup e _ hng] at hid
    rcases List.mem_singleton.mp hid with rfl
    exact ⟨e.idKind, c e.idKind + 1, generateId_fst _ c, by omega,
      le_of_eq (generateId_snd_same _ c).symm⟩
  · rw [elementIds_withAttrs_nongroup e _ hng]
    simp

/-- The combined freshness induction for cloneElement and cloneElementList:
the clone's ids are generated strictly above the starting counters and at or
below the final counters, pairwise distinct, and the counters only grow. -/
theorem clone_fresh_aux : ∀ fuel : Nat,
    (∀ e : SVGElement, sizeOf e ≤ fuel → ∀ c : Counters,
      (∀ t, c t ≤ (cloneElement e none c).2 t) ∧
      (∀ id ∈ elementIds (cloneElement e none c).1, ∃ t n,
        id = genName t n ∧ c t < n ∧ n ≤ (cloneElement e none c).2 t) ∧
      (elementIds (cloneElement e none c).1).Nodup) ∧
    (∀ es : List SVGElement, sizeOf es ≤ fuel → ∀ c : Counters,
      (∀ t, c t ≤ (cloneElementList es c).2 t) ∧
      (∀ id ∈ elementIdsList (cloneElementList es c).1, ∃ t n,
        id = genName t n ∧ c t < n ∧ n ≤ (cloneElementList es c).2 t) ∧
      (elementIdsList (cloneElementList es c).1).Nodup) := by
  intro fuel
  induction fuel using Nat.strong_induction_on with
  | _ fuel ih =>
    constructor
    · intro e hsz c
      cases e with
      | group a cs =>
        have hlt : sizeOf cs < fuel := by
          have hxs : sizeOf cs < sizeOf (SVGElement.group a cs) := by
            simp
          omega
        obtain ⟨hmonoL, hfreshL, hndL⟩ :=
          (ih (sizeOf cs) hlt).2 cs le_rfl (generateId IdKind.group c).2
        rw [cloneElement_group]
        have hup : ∀ t, c t ≤ (generateId IdKind.group c).2 t :=
          generateId_snd_mono _ c
        refine ⟨fun t => (hup t).trans (hmonoL t), ?_, ?_⟩
        · intro id hid
          simp only [elementIds] at hid
          rcases List.mem_cons.mp hid with rfl | hid
          · refine ⟨IdKind.group, c IdKind.group + 1, generateId_fst _ c,
              by omega, ?_⟩
            have := hmonoL IdKind.group
            rw [generateId_snd_same] at this
            exact this
          · rcases hfreshL id hid with ⟨t, n, hEq, hlt', hle⟩
            exact ⟨t, n, hEq, lt_of_le_of_lt (hup t) hlt', hle⟩
        · simp only [elementIds]
          rw [List.nodup_cons]
          refine ⟨?_, hndL⟩
          intro hmem
          rcases hfreshL _ hmem with ⟨t, n, hEq, hlt', _⟩
          rw [generateId_fst] at hEq
          rcases genName_inj hEq with ⟨rfl, rfl⟩
          rw [generateId_snd_same] at hlt'
          omega
      | rect a x y w h rx ry =>
        exact clone_fresh_nongroup _ (fun _ _ h => SVGElement.noConfusion h) c
      | circle a cx cy r =>
        exact clone_fresh_nongroup _ (fun _ _ h => SVGElement.noConfusion h) c
      | ellipse a cx cy rx ry =>
        exact clone_fresh_nongroup _ (fun _ _ h => SVGElement.noConfusion h) c
      | line a x1 y1 x2 y2 =>
        exact clone_fresh_nongroup _ (fun _ _ h => SVGElement.noConfusion h) c
      | polyline a ps =>
        exact clone_fresh_nongroup _ (fun _ _ h => SVGElement.noConfusion h) c
      | polygon a ps =>
        exact clone_fresh_nongroup _ (fun _ _ h => SVGElement.noConfusion h) c
      | path a d =>
        exact clone_fresh_nongroup _ (fun _ _ h => SVGElement.noConfusion h) c
      | text a x y s f =>
        exact clone_fresh_nongroup _ (fun _ _ h => SVGElement.noConfusion h) c
      | textpath a pid s =>
        exact clone_fresh_nongroup _ (fun _ _ h => SVGElement.noConfusion h) c
      | image a href x y w h =>
        exact clone_fresh_nongroup _ (fun _ _ h => SVGElement.noConfusion h) c
      | use a href =>
        exact clone_fresh_nongroup _ (fun _ _ h => SVGElement.noConfusion h) c
    · intro es hsz c
      cases es with
      | nil =>
        refine ⟨fun t => le_rfl, ?_, ?_⟩ <;> simp [cloneElementList, elementIdsList]
      | cons e rest =>
        have hlte : sizeOf e < fuel := by
          have : sizeOf e < sizeOf (e :: rest) := by simp; omega
          omega
        have hltr : sizeOf rest < fuel := by
          have : sizeOf rest < sizeOf (e :: rest) := by simp
          omega
        obtain ⟨hmonoE, hfreshE, hndE⟩ := (ih (sizeOf e) hlte).1 e le_rfl c
        obtain ⟨hmonoL, hfreshL, hndL⟩ :=
          (ih (sizeOf rest) hltr).2 rest le_rfl (cloneElement e none c).2
        have hstep : cloneElementList (e :: rest) c =
            ((cloneElement e none c).1 ::
              (cloneElementList rest (cloneElement e none c).2).1,
             (cloneElementList rest (cloneElement e none c).2).2) := by
          simp [cloneElementList]
        rw [hstep]
        refine ⟨fun t => (hmonoE t).trans (hmonoL t), ?_, ?_⟩
        · intro id hid
          simp only [elementIdsList] at hid
          rcases List.mem_append.mp hid with hid | hid
          · rcases hfreshE id hid with ⟨t, n, hEq, hlt', hle⟩
            exact ⟨t, n, hEq, hlt', hle.trans (hmonoL t)⟩
          · rcases hfreshL id hid with ⟨t, n, hEq, hlt', hle⟩
            exact ⟨t, n, hEq, lt_of_le_of_lt (hmonoE t) hlt', hle⟩
        · simp only [elementIdsList]
          refine List.Nodup.append hndE hndL ?_
          intro id hid1 hid2
          rcases hfreshE id hid1 with ⟨t, n, hEq, _, hle⟩
          rcases hfreshL id hid2 with ⟨t', n', hEq', hlt', _⟩
          rw [hEq] at hEq'
          rcases genName_inj hEq' with ⟨rfl, rfl⟩
          omega

/-- Claim C9, counterexample: with fresh generator counters, cloning a group
whose own id is "group-1" hands the clone the identifier "group-1" again —
the clone shares an identifier with its source, refuting the claimed
disjointness for arbitrary groups. -/
theorem c9_counterexample :
    (cloneElement c9CtrG none resetCounters).1.elemId = "group-1" ∧
    "group-1" ∈ elementIds c9CtrG := by
  constructor
  · have h1 : genName IdKind.group 1 = "group-1" := by
      apply String.ext
      rw [genName_data, decDigits_lt (by norm_num)]
      decide
    rw [show c9CtrG = SVGElement.group { id := "group-1" }
      [SVGElement.rect { id := "rect-1" } 0 0 1 1 none none] from rfl]
    rw [cloneElement_group]
    simpa [SVGElement.elemId, SVGElement.attrs, generateId_fst,
      resetCounters] using h1
  · simp [c9CtrG, elementIds, elementIdsList, SVGElement.elemId,
      SVGElement.attrs]

/-- Claim C9, amended: clone identifier freshness holds whenever the current
counter state dominates every identifier occurring in the source (every id
readable as a generated id `kind-n` has n at most the kind's counter — in
particular after ids were generated or resynchronized by the Identifier
Generator): then the clone's identifiers are pairwise distinct and disjoint
from all identifiers occurring anywhere in the source, at any depth. -/
theorem c9_clone_fresh_amended (g : SVGElement) (c : Counters)
    (hdom : ∀ id ∈ elementIds g, Dominated c id) :
    (elementIds (cloneElement g none c).1).Nodup ∧
    (∀ id ∈ elementIds (cloneElement g none c).1, id ∉ elementIds g) := by
  obtain ⟨hmono, hfresh, hnd⟩ := (clone_fresh_aux (sizeOf g)).1 g le_rfl c
  refine ⟨hnd, ?_⟩
  intro id hid hismem
  rcases hfresh id hid with ⟨t, n, hEq, hlt, _⟩
  have := hdom id hismem t n hEq
  omega

/-- Witness for the amended C9 theorem at a concrete dominated group. -/
theorem c9_clone_fresh_amended_witness :
    (elementIds (cloneElement c9WitG none resetCounters).1).Nodup ∧
    (∀ id ∈ elementIds (cloneElement c9WitG none resetCounters).1,
      id ∉ elementIds c9WitG) := by
  apply c9_clone_fresh_amended
  intro id hid t n hEq
  exfalso
  have hdash : '-' ∈ id.data := by
    rw [hEq]
    exact dash_mem_genName t n
  have hcases : id = "myGroup" ∨ id = "myRect" := by
    simpa [c9WitG, elementIds, elementIdsList, SVGElement.elemId,
      SVGElement.attrs] using hid
  rcases hcases with rfl | rfl <;> revert hdash <;> decide

end SvgCanvas
